import Mathlib

/-!
# Tomahawk `Album` identity cache

A shallow embedding of `src/libtomahawk/Album.cpp`: the three static hashes
`s_albumsByName`, `s_albumsById`, `s_albumsByCoverId`, the two factory
functions `Album::get`, `Album::getByCoverId`, the destructor, the pending-id
accessor `Album::id`, and the cover-art accessor with its two info-system
slots.

Conventions of the embedding
* A `QString` is a list of characters, a `QByteArray` a list of bytes.
* An `album_ptr` is `none` (the null shared pointer) or `some h`, where `h`
  is the index of the instance in the heap of constructed `Album` objects.
  Handles are never reused.
* Every function threads the global `State` explicitly.  Instance methods
  additionally thread the receiver (`self`).
* `QMutexLocker` on `s_mutex` is embedded by the ghost field `mutexHeld`;
  every access to one of the three hashes goes through `mapAccess`, which
  counts in `unguarded` the accesses performed while the mutex is not held.
* Ids are `unsigned int` in the source; they are only stored, compared with
  zero and compared with each other, so they are natural numbers here.
* Services that live outside `Album.cpp` (the UUID generator, the image
  decoder, the future of the id worker, `QString::arg`) are described where
  they are introduced.
* The destructor is a call like any other: it may be applied to any live
  instance.  Reference counts are not tracked.
-/

namespace Tomahawk

/-! ## Basic Qt value types -/

abbrev QString := List Char

abbrev QByteArray := List Nat

/-- A heap index of a constructed `Album`. -/
abbrev Handle := Nat

/-- The shared pointer `album_ptr`; `none` is the null pointer `album_ptr()`. -/
abbrev album_ptr := Option Handle

/-- The part of `Artist` that `Album.cpp` uses: `artist->name()`. -/
structure Artist where
  name : QString
deriving DecidableEq

/-- The type `QSize`. -/
structure QSize where
  width : Int
  height : Int
deriving DecidableEq

/-- The method `QSize::isEmpty`: either dimension is at most zero. -/
def QSize.isEmpty (sz : QSize) : Bool := decide (sz.width ≤ 0) || decide (sz.height ≤ 0)

/-- Pixmaps, kept symbolic: the null pixmap `QPixmap()`, a pixmap loaded from
bytes, and a scaled copy. -/
inductive QPixmap where
  | null : QPixmap
  | fromData (ba : QByteArray) : QPixmap
  | scaled (p : QPixmap) (size : QSize) : QPixmap
deriving DecidableEq

/-- The enum `InfoSystem::InfoType`; only `InfoAlbumCoverArt` is named in
`Album.cpp`, every other enumerator is `other n`. -/
inductive InfoType where
  | InfoAlbumCoverArt : InfoType
  | other (n : Nat) : InfoType
deriving DecidableEq

/-- The struct `InfoSystem::InfoRequestData` as filled in by `Album::cover`. -/
structure InfoRequestData where
  caller : QString
  type : InfoType
  input : List (QString × QString)
  customData : List (QString × QString)
deriving DecidableEq

/-- What `Album::infoSystemInfo` observes of the `QVariant` it is handed:
`isNull()`, `isValid()`, and the byte array stored under `imgbytes` of the
contained map (empty when there is none). -/
structure QVariant where
  isNull : Bool
  isValid : Bool
  imgbytes : QByteArray
deriving DecidableEq

/-! ## `QString::arg`

`albumCacheKey` builds its key with `QString( "%1\t\t%2" ).arg( a ).arg( b )`.
`QString::arg` is Qt library code.  It is modelled after Qt 4
(`findArgEscapes` / `replaceArgEscapes` in `qstring.cpp`): a place marker is
`%`, an optional `L`, and one or two decimal digits; `arg` replaces every
occurrence of the lowest-numbered marker and returns the string unchanged
when there is none.  Digits are the ASCII digits. -/

/-- The method `QChar::digitValue`, for ASCII digits. -/
def digitValue (c : Char) : Option Nat :=
  if c.isDigit then some (c.toNat - 48) else none

/-- A scanned piece of a format string. -/
inductive Seg where
  | lit (c : Char) : Seg
  | esc (n : Nat) (raw : List Char) : Seg
deriving DecidableEq

/-- Scanner state: plain text, after `%`, after `%L`, after the first digit. -/
inductive Scan where
  | text : Scan
  | pct : Scan
  | pctL : Scan
  | dig (locale : Bool) (v : Nat) (d : Char) : Scan

/-- The raw text of a marker. -/
def markerText (locale : Bool) (ds : List Char) : List Char :=
  if locale then '%' :: 'L' :: ds else '%' :: ds

/-- The scanning loop shared by `findArgEscapes` and `replaceArgEscapes`. -/
def scanEscapes : Scan → List Char → List Seg
  | .text, [] => []
  | .pct, [] => [Seg.lit '%']
  | .pctL, [] => [Seg.lit '%', Seg.lit 'L']
  | .dig l v d, [] => [Seg.esc v (markerText l [d])]
  | .text, c :: cs =>
    if c = '%' then scanEscapes .pct cs else Seg.lit c :: scanEscapes .text cs
  | .pct, c :: cs =>
    if c = 'L' then scanEscapes .pctL cs
    else match digitValue c with
      | some v => scanEscapes (.dig false v c) cs
      | none =>
        Seg.lit '%' ::
          (if c = '%' then scanEscapes .pct cs else Seg.lit c :: scanEscapes .text cs)
  | .pctL, c :: cs =>
    match digitValue c with
    | some v => scanEscapes (.dig true v c) cs
    | none =>
      Seg.lit '%' :: Seg.lit 'L' ::
        (if c = '%' then scanEscapes .pct cs else Seg.lit c :: scanEscapes .text cs)
  | .dig l v d, c :: cs =>
    match digitValue c with
    | some w => Seg.esc (10 * v + w) (markerText l [d, c]) :: scanEscapes .text cs
    | none =>
      Seg.esc v (markerText l [d]) ::
        (if c = '%' then scanEscapes .pct cs else Seg.lit c :: scanEscapes .text cs)

/-- The lowest marker number of a scanned string (`min_escape`). -/
def minEscape : List Seg → Option Nat
  | [] => none
  | Seg.lit _ :: rest => minEscape rest
  | Seg.esc n _ :: rest =>
    match minEscape rest with
    | none => some n
    | some m => some (min n m)

/-- Replace the markers numbered `m` by `a`, keep everything else. -/
def replaceEscapes (m : Nat) (a : QString) : List Seg → QString
  | [] => []
  | Seg.lit c :: rest => c :: replaceEscapes m a rest
  | Seg.esc n raw :: rest =>
    (if n = m then a else raw) ++ replaceEscapes m a rest

/-- The method `QString::arg( const QString& )` with the default field width. -/
def QString.arg (s a : QString) : QString :=
  match minEscape (scanEscapes .text s) with
  | none => s
  | some m => replaceEscapes m a (scanEscapes .text s)

/-- The tab character. -/
def tab : Char := Char.ofNat 9

/-- The literal `"%1\t\t%2"`. -/
def keyFormat : QString := ['%', '1', tab, tab, '%', '2']

/-- Album.cpp:44-48, `albumCacheKey`. -/
def albumCacheKey (artist : Artist) (albumName : QString) : QString :=
  QString.arg (QString.arg keyFormat artist.name) albumName

/-! ## The hashes -/

/-- A `QHash< K, album_ptr >`; a key is absent when the function yields `none`. -/
abbrev QHash (K : Type) := K → Option album_ptr

/-- The empty hash. -/
def QHash.empty {K : Type} : QHash K := fun _ => none

/-- The method `QHash::contains`. -/
def QHash.contains {K : Type} (m : QHash K) (k : K) : Bool := (m k).isSome

/-- The method `QHash::value` (and `operator[]` on a present key): the stored
pointer, a default-constructed (null) one when the key is absent. -/
def QHash.value {K : Type} (m : QHash K) (k : K) : album_ptr := (m k).getD none

/-- The method `QHash::insert` and assignment through `operator[]`. -/
def QHash.insert {K : Type} [DecidableEq K] (m : QHash K) (k : K) (v : album_ptr) : QHash K :=
  fun j => if j = k then some v else m j

/-- The method `QHash::remove`. -/
def QHash.remove {K : Type} [DecidableEq K] (m : QHash K) (k : K) : QHash K :=
  fun j => if j = k then none else m j

/-! ## Instances and the global state -/

/-- The data members of `Album` that `Album.cpp` reads or writes.
`m_idFuture` is the value `m_idFuture.result()` yields once the id worker has
answered, `none` for a default-constructed future.  `infoConnections` and
`finishedConnections` count the signal connections made by `cover`.
`alive` is cleared by the destructor.  (`m_sortname` and
`m_playlistInterface` take no part in the cache and are left out.) -/
structure Album where
  m_waitingForId : Bool
  m_id : Nat
  m_name : QString
  m_artist : Artist
  m_coverLoaded : Bool
  m_coverLoading : Bool
  m_cover : Option QPixmap
  m_coverBuffer : QByteArray
  m_coverCache : List (Int × QPixmap)
  m_uuid : QString
  m_coverId : QString
  m_idFuture : Option Nat
  m_ownRef : album_ptr
  infoConnections : Nat
  finishedConnections : Nat
  alive : Bool

/-- The process state: the three static hashes, the heap of constructed
instances, whether `Database::instance()` and its `impl()` exist, the stream
of strings the UUID generator `uuid()` hands out together with the number
already handed out, the platform image decoder (does `loadFromData` succeed),
the ghost lock state of `s_mutex`, the ghost count of hash accesses made
without it, and the log of `InfoSystem::getInfo` requests with the instance
that issued each. -/
structure State where
  s_albumsByName : QHash QString
  s_albumsById : QHash Nat
  s_albumsByCoverId : QHash QString
  heap : List Album
  databaseInstance : Bool
  databaseImpl : Bool
  uuidSrc : Nat → QString
  uuidCount : Nat
  decodes : QByteArray → Bool
  mutexHeld : Bool
  unguarded : Nat
  getInfoLog : List (Handle × InfoRequestData)

/-- The state at program start: empty hashes, no instance. -/
def State.init (uuidSrc : Nat → QString) (decodes : QByteArray → Bool)
    (databaseInstance databaseImpl : Bool) : State :=
  { s_albumsByName := QHash.empty
    s_albumsById := QHash.empty
    s_albumsByCoverId := QHash.empty
    heap := []
    databaseInstance := databaseInstance
    databaseImpl := databaseImpl
    uuidSrc := uuidSrc
    uuidCount := 0
    decodes := decodes
    mutexHeld := false
    unguarded := 0
    getInfoLog := [] }

/-- Construction of `QMutexLocker( &s_mutex )`. -/
def lockMutex (s : State) : State := { s with mutexHeld := true }

/-- Destruction of the `QMutexLocker` at scope exit. -/
def unlockMutex (s : State) : State := { s with mutexHeld := false }

/-- Ghost bookkeeping for one read or write of one of the three hashes. -/
def mapAccess (s : State) : State :=
  if s.mutexHeld then s else { s with unguarded := s.unguarded + 1 }

/-- The free function `uuid()`: the next string of the generator. -/
def uuid (s : State) : QString × State :=
  (s.uuidSrc s.uuidCount, { s with uuidCount := s.uuidCount + 1 })

/-- The instance behind a handle, when it has been constructed and not yet
destroyed. -/
def liveAlbum (s : State) (a : Handle) : Option Album :=
  match s.heap[a]? with
  | some self => if self.alive then some self else none
  | none => none

/-- Write the receiver back to its heap cell. -/
def store (s : State) (a : Handle) (self : Album) : State :=
  { s with heap := s.heap.set a self }

/-- Album.cpp:128-141, the constructor taking an id. -/
def Album.withId (id : Nat) (name : QString) (artist : Artist) : Album :=
  { m_waitingForId := false
    m_id := id
    m_name := name
    m_artist := artist
    m_coverLoaded := false
    m_coverLoading := false
    m_cover := none
    m_coverBuffer := []
    m_coverCache := []
    m_uuid := []
    m_coverId := []
    m_idFuture := none
    m_ownRef := none
    infoConnections := 0
    finishedConnections := 0
    alive := true }

/-- Album.cpp:144-156, the constructor of a pending instance.  The source
leaves `m_id` uninitialised; it is read only by `id()` which overwrites the
value read while the instance is pending.  It is 0 here. -/
def Album.pending (name : QString) (artist : Artist) : Album :=
  { m_waitingForId := true
    m_id := 0
    m_name := name
    m_artist := artist
    m_coverLoaded := false
    m_coverLoading := false
    m_cover := none
    m_coverBuffer := []
    m_coverCache := []
    m_uuid := []
    m_coverId := []
    m_idFuture := none
    m_ownRef := none
    infoConnections := 0
    finishedConnections := 0
    alive := true }

/-- The setter `setWeakRef`. -/
def Album.setWeakRef (self : Album) (ref : album_ptr) : Album :=
  { self with m_ownRef := ref }

/-- Album.cpp:180-184, `setIdFuture`. -/
def Album.setIdFuture (self : Album) (future : Nat) : Album :=
  { self with m_idFuture := some future }

/-- Album.cpp:172-177, `loadId`.  `IdThreadWorker::getAlbumId` hands the
instance a future through `setIdFuture`; `idResult` is the value that future
yields. -/
def Album.loadId (self : Album) (_autoCreate : Bool) (idResult : Nat) : Album :=
  Album.setIdFuture self idResult

/-- Album.cpp:349-356, `uniqueId`. -/
def Album.uniqueId (s : State) (self : Album) : QString × State × Album :=
  if self.m_uuid.isEmpty then
    ((uuid s).1, (uuid s).2, { self with m_uuid := (uuid s).1 })
  else (self.m_uuid, s, self)

/-- Album.cpp:359-366, `coverId`. -/
def Album.coverId (s : State) (self : Album) : QString × State × Album :=
  if self.m_coverId.isEmpty then
    ((uuid s).1, (uuid s).2, { self with m_coverId := (uuid s).1 })
  else (self.m_coverId, s, self)

/-! ## The factory functions -/

/-- Album.cpp:67-90, `Album::get( artist, name, autoCreate )`. -/
def Album.get (s : State) (artist : Artist) (name : QString) (autoCreate : Bool)
    (idResult : Nat) : album_ptr × State :=
  if !s.databaseInstance || !s.databaseImpl then (none, s)
  else
    let s := lockMutex s
    let key := albumCacheKey artist name
    let s := mapAccess s
    if QHash.contains s.s_albumsByName key then
      (QHash.value s.s_albumsByName key, unlockMutex (mapAccess s))
    else
      let a := s.heap.length
      let album := Album.pending name artist
      let album := Album.setWeakRef album (some a)
      let album := Album.loadId album autoCreate idResult
      let r := Album.coverId s album
      let s := r.2.1
      let album := r.2.2
      let s := mapAccess
        { s with s_albumsByCoverId := QHash.insert s.s_albumsByCoverId r.1 (some a) }
      let s := mapAccess
        { s with s_albumsByName := QHash.insert s.s_albumsByName key (some a) }
      (some a, unlockMutex { s with heap := s.heap ++ [album] })

/-- Album.cpp:93-113, `Album::get( id, name, artist )`. -/
def Album.getWithId (s : State) (id : Nat) (name : QString) (artist : Artist) :
    album_ptr × State :=
  let s := lockMutex s
  let s := mapAccess s
  if QHash.contains s.s_albumsById id then
    (QHash.value s.s_albumsById id, unlockMutex (mapAccess s))
  else
    let a := s.heap.length
    let album := Album.withId id name artist
    let album := Album.setWeakRef album (some a)
    let r := Album.coverId s album
    let s := r.2.1
    let album := r.2.2
    let s := mapAccess
      { s with s_albumsByCoverId := QHash.insert s.s_albumsByCoverId r.1 (some a) }
    let s := mapAccess
      { s with s_albumsByName :=
          QHash.insert s.s_albumsByName (albumCacheKey artist name) (some a) }
    let s := if id > 0 then
        mapAccess { s with s_albumsById := QHash.insert s.s_albumsById id (some a) }
      else s
    (some a, unlockMutex { s with heap := s.heap ++ [album] })

/-- Album.cpp:116-125, `Album::getByCoverId`. -/
def Album.getByCoverId (s : State) (uuid : QString) : album_ptr × State :=
  let s := lockMutex s
  let s := mapAccess s
  if QHash.contains s.s_albumsByCoverId uuid then
    (QHash.value s.s_albumsByCoverId uuid, unlockMutex (mapAccess s))
  else (none, unlockMutex s)

/-! ## Instance methods -/

/-- Album.cpp:51-64, the destructor. -/
def Album.destroy (s : State) (a : Handle) : Option State :=
  match liveAlbum s a with
  | none => none
  | some self =>
    let s := lockMutex s
    let s := mapAccess
      { s with s_albumsByName :=
          QHash.remove s.s_albumsByName (albumCacheKey self.m_artist self.m_name) }
    let r := Album.coverId s self
    let s := r.2.1
    let self := r.2.2
    let s := mapAccess { s with s_albumsByCoverId := QHash.remove s.s_albumsByCoverId r.1 }
    let self := { self with m_ownRef := none, m_cover := none, alive := false }
    some (unlockMutex (store s a self))

/-- Album.cpp:187-213, `Album::id`.  The read-write lock `s_idMutex` guards
only `m_waitingForId` and `m_id` and is not tracked.  Waiting on a future
that was never set has no result. -/
def Album.id (s : State) (a : Handle) : Option (Nat × State) :=
  match liveAlbum s a with
  | none => none
  | some self =>
    if self.m_waitingForId then
      match self.m_idFuture with
      | none => none
      | some finalId =>
        let self := { self with m_id := finalId, m_waitingForId := false }
        let s := store s a self
        if self.m_id > 0 then
          let s := lockMutex s
          let s := mapAccess
            { s with s_albumsById := QHash.insert s.s_albumsById self.m_id self.m_ownRef }
          some (finalId, unlockMutex s)
        else some (finalId, s)
    else some (self.m_id, s)

/-- The method `QPixmap::isNull`, given the platform decoder. -/
def QPixmap.isNull (decodes : QByteArray → Bool) : QPixmap → Bool
  | .null => true
  | .fromData ba => !decodes ba
  | .scaled p size => QPixmap.isNull decodes p || size.isEmpty

/-- Album.cpp:225-245, the fetch branch of `cover`: build the request,
connect the two slots, call `getInfo`, set `m_coverLoading`. -/
def Album.requestCover (s : State) (a : Handle) (self : Album) : State × Album :=
  let trackInfo : List (QString × QString) :=
    [(['a', 'r', 't', 'i', 's', 't'], self.m_artist.name),
     (['a', 'l', 'b', 'u', 'm'], self.m_name)]
  let r := Album.uniqueId s self
  let s := r.2.1
  let self := r.2.2
  let requestData : InfoRequestData :=
    { caller := r.1
      type := InfoType.InfoAlbumCoverArt
      input := trackInfo
      customData := [] }
  let self := { self with infoConnections := self.infoConnections + 1 }
  let self := { self with finishedConnections := self.finishedConnections + 1 }
  let s := { s with getInfoLog := s.getInfoLog ++ [(a, requestData)] }
  (s, { self with m_coverLoading := true })

/-- Album.cpp:248-270, the tail of `cover`: decode the buffer once, serve a
scaled copy from the per-width cache. -/
def Album.coverPixmap (s : State) (self : Album) (size : QSize) : QPixmap × Album :=
  let self :=
    if self.m_cover.isNone && !self.m_coverBuffer.isEmpty then
      { self with m_cover := some (QPixmap.fromData self.m_coverBuffer) }
    else self
  match self.m_cover with
  | some cover =>
    if !QPixmap.isNull s.decodes cover && !size.isEmpty then
      match self.m_coverCache.lookup size.width with
      | some cached => (cached, self)
      | none =>
        let scaledCover := QPixmap.scaled cover size
        (scaledCover,
          { self with m_coverCache := (size.width, scaledCover) :: self.m_coverCache })
    else (cover, self)
  | none => (QPixmap.null, self)

/-- Album.cpp:217-271, `Album::cover`. -/
def Album.cover (s : State) (a : Handle) (size : QSize) (forceLoad : Bool) :
    Option (QPixmap × State) :=
  match liveAlbum s a with
  | none => none
  | some self =>
    if !self.m_coverLoaded && !self.m_coverLoading then
      if !forceLoad then some (QPixmap.null, s)
      else
        let r := Album.requestCover s a self
        let p := Album.coverPixmap r.1 r.2 size
        some (p.1, store r.1 a p.2)
    else
      let p := Album.coverPixmap s self size
      some (p.1, store s a p.2)

/-- Album.cpp:290-297, the first half of the valid-result branch of
`infoSystemInfo`: take over non-empty image bytes, mark the cover loaded. -/
def Album.takeCover (self : Album) (output : QVariant) : Album :=
  let ba := output.imgbytes
  let self := if ba.length ≠ 0 then { self with m_coverBuffer := ba } else self
  { self with m_coverLoaded := true }

/-- Album.cpp:298-300, the second half: remove the entry under `coverId()`,
draw a new cover id, register the own reference under it. -/
def Album.renewCoverId (s : State) (self : Album) : State × Album :=
  let c := Album.coverId s self
  let s := c.2.1
  let self := c.2.2
  let s := mapAccess { s with s_albumsByCoverId := QHash.remove s.s_albumsByCoverId c.1 }
  let u := uuid s
  let s := u.2
  let self := { self with m_coverId := u.1 }
  let s := mapAccess
    { s with s_albumsByCoverId :=
        QHash.insert s.s_albumsByCoverId self.m_coverId self.m_ownRef }
  (s, self)

/-- Album.cpp:275-303, the slot `Album::infoSystemInfo`. -/
def Album.infoSystemInfo (s : State) (a : Handle) (requestData : InfoRequestData)
    (output : QVariant) : Option State :=
  match liveAlbum s a with
  | none => none
  | some self =>
    let r := Album.uniqueId s self
    let s := r.2.1
    let self := r.2.2
    if requestData.caller ≠ r.1 ∨ requestData.type ≠ InfoType.InfoAlbumCoverArt then
      some (store s a self)
    else if output.isNull then
      some (store s a { self with m_coverLoaded := true })
    else if output.isValid then
      let n := Album.renewCoverId s (Album.takeCover self output)
      some (store n.1 a n.2)
    else some (store s a self)

/-- Album.cpp:306-321, the slot `Album::infoSystemFinished`. -/
def Album.infoSystemFinished (s : State) (a : Handle) (target : QString) : Option State :=
  match liveAlbum s a with
  | none => none
  | some self =>
    let r := Album.uniqueId s self
    let s := r.2.1
    let self := r.2.2
    if target ≠ r.1 then some (store s a self)
    else
      let self := { self with infoConnections := 0 }
      let self := { self with finishedConnections := 0 }
      some (store s a { self with m_coverLoading := false })

/-! ## Runs -/

/-- One call into the cache or into an instance. -/
inductive Op where
  | get (artist : Artist) (name : QString) (autoCreate : Bool) (idResult : Nat) : Op
  | getWithId (id : Nat) (name : QString) (artist : Artist) : Op
  | getByCoverId (uuid : QString) : Op
  | id (a : Handle) : Op
  | destroy (a : Handle) : Op
  | cover (a : Handle) (size : QSize) (forceLoad : Bool) : Op
  | infoSystemInfo (a : Handle) (requestData : InfoRequestData) (output : QVariant) : Op
  | infoSystemFinished (a : Handle) (target : QString) : Op

/-- The state after one call; a call on a handle that is not a live instance
(or that waits on a future never set) leaves the state as it is. -/
def step (s : State) : Op → State
  | .get artist name autoCreate idResult => (Album.get s artist name autoCreate idResult).2
  | .getWithId id name artist => (Album.getWithId s id name artist).2
  | .getByCoverId uuid => (Album.getByCoverId s uuid).2
  | .id a => ((Album.id s a).map Prod.snd).getD s
  | .destroy a => (Album.destroy s a).getD s
  | .cover a size forceLoad => ((Album.cover s a size forceLoad).map Prod.snd).getD s
  | .infoSystemInfo a requestData output => (Album.infoSystemInfo s a requestData output).getD s
  | .infoSystemFinished a target => (Album.infoSystemFinished s a target).getD s

/-- The state after a sequence of calls. -/
def run (s : State) : List Op → State
  | [] => s
  | op :: ops => run (step s op) ops

/-! ## Auxiliary definitions used in the statements -/

/-- The instance the name-based factory constructs on a miss. -/
def Album.fresh (s : State) (artist : Artist) (name : QString) (idResult : Nat) : Album :=
  { Album.pending name artist with
    m_ownRef := some s.heap.length
    m_idFuture := some idResult
    m_coverId := s.uuidSrc s.uuidCount }

/-- The instance the id-based factory constructs on a miss. -/
def Album.freshWithId (s : State) (id : Nat) (name : QString) (artist : Artist) : Album :=
  { Album.withId id name artist with
    m_ownRef := some s.heap.length
    m_coverId := s.uuidSrc s.uuidCount }

/-- The members of an instance that the cover-art machinery never writes. -/
def Album.SameCore (x y : Album) : Prop :=
  y.m_waitingForId = x.m_waitingForId ∧ y.m_id = x.m_id ∧ y.m_name = x.m_name ∧
  y.m_artist = x.m_artist ∧ y.m_idFuture = x.m_idFuture ∧ y.m_ownRef = x.m_ownRef ∧
  y.alive = x.alive

/-- The number of `getInfo` requests issued so far by instance `a`. -/
def fetchCount (s : State) (a : Handle) : Nat :=
  (s.getInfoLog.filter (fun e => decide (e.1 = a))).length

/-- The guard of `infoSystemInfo` lets the delivery through: the caller token
is the receiver's `uniqueId()` and the type is album cover art. -/
def Album.accepts (s : State) (self : Album) (requestData : InfoRequestData) : Bool :=
  decide (requestData.caller = (Album.uniqueId s self).1) &&
    decide (requestData.type = InfoType.InfoAlbumCoverArt)

/-- The identity members of an instance: the pending flag, the id, the name,
the artist and the id future. -/
def Album.SameId (x y : Album) : Prop :=
  y.m_waitingForId = x.m_waitingForId ∧ y.m_id = x.m_id ∧ y.m_name = x.m_name ∧
  y.m_artist = x.m_artist ∧ y.m_idFuture = x.m_idFuture

/-- The cover id of `y` is that of `x`, or one drawn from the generator
between the two states. -/
def Album.CoverIdFrom (s t : State) (x y : Album) : Prop :=
  y.m_coverId = x.m_coverId ∨
    ∃ k, s.uuidCount ≤ k ∧ k < t.uuidCount ∧ y.m_coverId = s.uuidSrc k

/-- Nothing but ghost state and the generator position may differ. -/
def Step.Quiet (s t : State) : Prop :=
  t.heap = s.heap ∧ t.s_albumsByName = s.s_albumsByName ∧
  t.s_albumsById = s.s_albumsById ∧ t.s_albumsByCoverId = s.s_albumsByCoverId

/-- The name-based factory constructed an instance. -/
def Step.NewByName (s t : State) (op : Op) : Prop :=
  ∃ artist name autoCreate idResult,
    op = Op.get artist name autoCreate idResult ∧
    s.s_albumsByName (albumCacheKey artist name) = none ∧
    t.heap = s.heap ++ [Album.fresh s artist name idResult] ∧
    t.s_albumsByName
      = QHash.insert s.s_albumsByName (albumCacheKey artist name) (some s.heap.length) ∧
    t.s_albumsById = s.s_albumsById ∧
    t.s_albumsByCoverId
      = QHash.insert s.s_albumsByCoverId (s.uuidSrc s.uuidCount) (some s.heap.length) ∧
    t.uuidCount = s.uuidCount + 1

/-- The id-based factory constructed an instance. -/
def Step.NewById (s t : State) (op : Op) : Prop :=
  ∃ id name artist,
    op = Op.getWithId id name artist ∧
    s.s_albumsById id = none ∧
    t.heap = s.heap ++ [Album.freshWithId s id name artist] ∧
    t.s_albumsByName
      = QHash.insert s.s_albumsByName (albumCacheKey artist name) (some s.heap.length) ∧
    t.s_albumsById
      = (if id > 0 then QHash.insert s.s_albumsById id (some s.heap.length)
         else s.s_albumsById) ∧
    t.s_albumsByCoverId
      = QHash.insert s.s_albumsByCoverId (s.uuidSrc s.uuidCount) (some s.heap.length) ∧
    t.uuidCount = s.uuidCount + 1

/-- A pending instance resolved its id. -/
def Step.Resolve (s t : State) (op : Op) : Prop :=
  ∃ a self n,
    op = Op.id a ∧ liveAlbum s a = some self ∧
    self.m_waitingForId = true ∧ self.m_idFuture = some n ∧
    t.heap = s.heap.set a { self with m_id := n, m_waitingForId := false } ∧
    t.s_albumsByName = s.s_albumsByName ∧
    t.s_albumsById
      = (if n > 0 then QHash.insert s.s_albumsById n self.m_ownRef else s.s_albumsById) ∧
    t.s_albumsByCoverId = s.s_albumsByCoverId

/-- An instance was destroyed. -/
def Step.Destroy (s t : State) (op : Op) : Prop :=
  ∃ a self y kold,
    op = Op.destroy a ∧ liveAlbum s a = some self ∧
    t.heap = s.heap.set a y ∧ Album.SameId self y ∧ y.alive = false ∧
    Album.CoverIdFrom s t self y ∧
    (self.m_coverId ≠ [] → kold = self.m_coverId) ∧
    t.s_albumsByName
      = QHash.remove s.s_albumsByName (albumCacheKey self.m_artist self.m_name) ∧
    t.s_albumsById = s.s_albumsById ∧
    t.s_albumsByCoverId = QHash.remove s.s_albumsByCoverId kold

/-- A cover-art call touched one instance and no hash. -/
def Step.Cover (s t : State) : Prop :=
  ∃ a self y,
    liveAlbum s a = some self ∧
    t.heap = s.heap.set a y ∧ Album.SameCore self y ∧ y.m_coverId = self.m_coverId ∧
    t.s_albumsByName = s.s_albumsByName ∧
    t.s_albumsById = s.s_albumsById ∧
    t.s_albumsByCoverId = s.s_albumsByCoverId

/-- A cover result re-registered an instance under a new cover id. -/
def Step.Renew (s t : State) (op : Op) : Prop :=
  ∃ a requestData output self y kold k,
    op = Op.infoSystemInfo a requestData output ∧
    liveAlbum s a = some self ∧
    t.heap = s.heap.set a y ∧ Album.SameCore self y ∧
    y.m_coverId = s.uuidSrc k ∧ s.uuidCount ≤ k ∧ k < t.uuidCount ∧
    (self.m_coverId ≠ [] → kold = self.m_coverId) ∧
    t.s_albumsByName = s.s_albumsByName ∧
    t.s_albumsById = s.s_albumsById ∧
    t.s_albumsByCoverId
      = QHash.insert (QHash.remove s.s_albumsByCoverId kold) (s.uuidSrc k) self.m_ownRef

/-- A sample UUID generator: the n-th string is n+1 letters long. -/
def sampleUuid : Nat → QString := fun n => List.replicate (n + 1) 'u'

/-- A sample start state with a database. -/
def sampleState : State := State.init sampleUuid (fun _ => true) true true

/-- A sample start state without a database implementation. -/
def sampleStateNoDb : State := State.init sampleUuid (fun _ => true) true false

/-- A sample artist. -/
def sampleArtist : Artist := { name := ['A'] }

/-- The sample state after one name-based lookup: instance 0 is registered. -/
def sampleOne : State := (Album.get sampleState sampleArtist ['X'] true 5).2

/-- A cover-art delivery addressed to the token `uu`. -/
def sampleRequest : InfoRequestData :=
  { caller := ['u', 'u'], type := InfoType.InfoAlbumCoverArt, input := [], customData := [] }

/-- A valid, non-null result carrying one byte. -/
def sampleResult : QVariant := { isNull := false, isValid := true, imgbytes := [1] }

/-- The value `id()` is bound to return for an instance in its present state:
the result of its future while it is pending, the stored id otherwise. -/
def Album.determinedId (x : Album) : Option Nat :=
  if x.m_waitingForId then x.m_idFuture else some x.m_id

/-- What every call preserves of an instance already constructed. -/
def Album.Evolves (x y : Album) : Prop :=
  Album.determinedId y = Album.determinedId x ∧
  (x.m_waitingForId = false → y.m_waitingForId = false) ∧
  y.m_name = x.m_name ∧ y.m_artist = x.m_artist ∧
  (y.alive = true → x.alive = true)

/-- Calling `id()` on `b` now would resolve a pending instance to `n`. -/
def resolvesTo (s : State) (b : Handle) (n : Nat) : Bool :=
  match liveAlbum s b with
  | some self => self.m_waitingForId && decide (self.m_idFuture = some n)
  | none => false

/-- Somewhere in the run `id()` is called on an instance other than `a` that is
pending at that moment with a future yielding `n`. -/
def otherResolves (n : Nat) (a : Handle) : State → List Op → Bool
  | _, [] => false
  | s, op :: ops =>
    (match op with
      | Op.id b => decide (b ≠ a) && resolvesTo s b n
      | _ => false) || otherResolves n a (step s op) ops

/-- The size used in the samples. -/
def sampleSize : QSize := { width := 64, height := 64 }

/-- The call is a `cover` call or a delivery to one of the two slots of
instance `a`, and a delivery comes in the order in which the info system
works: a result that the guard of `infoSystemInfo` accepts arrives only while
a fetch is outstanding (`m_coverLoading`, set where `cover` connects the slots
and cleared where `infoSystemFinished` disconnects them), and `finished` for
the token of the instance arrives only after the cover was marked loaded. -/
def coverStepOk (a : Handle) (s : State) : Op → Bool
  | Op.cover b _ _ => decide (b = a)
  | Op.infoSystemInfo b requestData _ =>
    decide (b = a) &&
      (match liveAlbum s a with
        | some self => !Album.accepts s self requestData || self.m_coverLoading
        | none => true)
  | Op.infoSystemFinished b target =>
    decide (b = a) &&
      (match liveAlbum s a with
        | some self => !decide (target = (Album.uniqueId s self).1) || self.m_coverLoaded
        | none => true)
  | _ => false

/-- Every call of the run passes `coverStepOk` in the state it is made in. -/
def coverProtocol (a : Handle) : State → List Op → Bool
  | _, [] => true
  | s, op :: ops => coverStepOk a s op && coverProtocol a (step s op) ops

/-- The call is `cover( size, true )`. -/
def isForcedCover : Op → Bool
  | Op.cover _ _ true => true
  | _ => false

/-- The run contains a call `cover( size, true )`. -/
def hasForcedCover (ops : List Op) : Bool := ops.any isForcedCover

/-- Nothing requested yet: no fetch issued by `a`, cover neither loaded nor
loading. -/
def CoverIdle (s : State) (a : Handle) : Prop :=
  ∃ x, liveAlbum s a = some x ∧ fetchCount s a = 0 ∧
    x.m_coverLoaded = false ∧ x.m_coverLoading = false

/-- Exactly one fetch issued by `a`, and the cover loading or loaded. -/
def CoverOnce (s : State) (a : Handle) : Prop :=
  ∃ x, liveAlbum s a = some x ∧ fetchCount s a = 1 ∧
    (x.m_coverLoaded = true ∨ x.m_coverLoading = true)

/-- A valid, null result. -/
def sampleNullResult : QVariant := { isNull := true, isValid := true, imgbytes := [] }

/-- The call is the name-based factory. -/
def isNameGet : Op → Bool
  | Op.get _ _ _ _ => true
  | _ => false

/-- The call is the id-based factory. -/
def isIdGet : Op → Bool
  | Op.getWithId _ _ _ => true
  | _ => false

/-- Every cover id in the heap was drawn from the generator, and no two
constructed instances share one. -/
def CoverInv (t : State) : Prop :=
  (∀ (i : Handle) (x : Album), t.heap[i]? = some x →
    ∃ k, k < t.uuidCount ∧ x.m_coverId = t.uuidSrc k) ∧
  (∀ (i j : Handle) (x y : Album), t.heap[i]? = some x → t.heap[j]? = some y →
    x.m_coverId = y.m_coverId → i = j)

/-- Every live instance is the one registered under its own name key. -/
def NameInv (t : State) : Prop :=
  ∀ (i : Handle) (x : Album), liveAlbum t i = some x →
    t.s_albumsByName (albumCacheKey x.m_artist x.m_name) = some (some i)

/-- No instance is pending, and every instance with a non-zero id is the one
registered under it. -/
def IdInv (t : State) : Prop :=
  ∀ (i : Handle) (x : Album), t.heap[i]? = some x →
    x.m_waitingForId = false ∧ (0 < x.m_id → t.s_albumsById x.m_id = some (some i))

/-- Every live instance holds a reference to itself, and every constructed
instance has a cover id. -/
def FactoryInv (t : State) : Prop :=
  (∀ (i : Handle) (x : Album), liveAlbum t i = some x → x.m_ownRef = some i) ∧
  (∀ (i : Handle) (x : Album), t.heap[i]? = some x → x.m_coverId ≠ [])

/-! ## Projections of the ghost steps -/

section ghost

variable (s : State)

@[simp] theorem lockMutex_proj :
    (lockMutex s).s_albumsByName = s.s_albumsByName ∧
    (lockMutex s).s_albumsById = s.s_albumsById ∧
    (lockMutex s).s_albumsByCoverId = s.s_albumsByCoverId ∧
    (lockMutex s).heap = s.heap ∧
    (lockMutex s).databaseInstance = s.databaseInstance ∧
    (lockMutex s).databaseImpl = s.databaseImpl ∧
    (lockMutex s).uuidSrc = s.uuidSrc ∧
    (lockMutex s).uuidCount = s.uuidCount ∧
    (lockMutex s).decodes = s.decodes ∧
    (lockMutex s).mutexHeld = true ∧
    (lockMutex s).unguarded = s.unguarded ∧
    (lockMutex s).getInfoLog = s.getInfoLog :=
  ⟨rfl, rfl, rfl, rfl, rfl, rfl, rfl, rfl, rfl, rfl, rfl, rfl⟩

@[simp] theorem unlockMutex_proj :
    (unlockMutex s).s_albumsByName = s.s_albumsByName ∧
    (unlockMutex s).s_albumsById = s.s_albumsById ∧
    (unlockMutex s).s_albumsByCoverId = s.s_albumsByCoverId ∧
    (unlockMutex s).heap = s.heap ∧
    (unlockMutex s).databaseInstance = s.databaseInstance ∧
    (unlockMutex s).databaseImpl = s.databaseImpl ∧
    (unlockMutex s).uuidSrc = s.uuidSrc ∧
    (unlockMutex s).uuidCount = s.uuidCount ∧
    (unlockMutex s).decodes = s.decodes ∧
    (unlockMutex s).mutexHeld = false ∧
    (unlockMutex s).unguarded = s.unguarded ∧
    (unlockMutex s).getInfoLog = s.getInfoLog :=
  ⟨rfl, rfl, rfl, rfl, rfl, rfl, rfl, rfl, rfl, rfl, rfl, rfl⟩

@[simp] theorem mapAccess_proj :
    (mapAccess s).s_albumsByName = s.s_albumsByName ∧
    (mapAccess s).s_albumsById = s.s_albumsById ∧
    (mapAccess s).s_albumsByCoverId = s.s_albumsByCoverId ∧
    (mapAccess s).heap = s.heap ∧
    (mapAccess s).databaseInstance = s.databaseInstance ∧
    (mapAccess s).databaseImpl = s.databaseImpl ∧
    (mapAccess s).uuidSrc = s.uuidSrc ∧
    (mapAccess s).uuidCount = s.uuidCount ∧
    (mapAccess s).decodes = s.decodes ∧
    (mapAccess s).mutexHeld = s.mutexHeld ∧
    (mapAccess s).getInfoLog = s.getInfoLog := by
  unfold mapAccess
  split <;> simp

theorem mapAccess_unguarded :
    (mapAccess s).unguarded = if s.mutexHeld then s.unguarded else s.unguarded + 1 := by
  unfold mapAccess
  split <;> simp [*]

@[simp] theorem store_proj (a : Handle) (self : Album) :
    (store s a self).s_albumsByName = s.s_albumsByName ∧
    (store s a self).s_albumsById = s.s_albumsById ∧
    (store s a self).s_albumsByCoverId = s.s_albumsByCoverId ∧
    (store s a self).heap = s.heap.set a self ∧
    (store s a self).databaseInstance = s.databaseInstance ∧
    (store s a self).databaseImpl = s.databaseImpl ∧
    (store s a self).uuidSrc = s.uuidSrc ∧
    (store s a self).uuidCount = s.uuidCount ∧
    (store s a self).decodes = s.decodes ∧
    (store s a self).mutexHeld = s.mutexHeld ∧
    (store s a self).unguarded = s.unguarded ∧
    (store s a self).getInfoLog = s.getInfoLog :=
  ⟨rfl, rfl, rfl, rfl, rfl, rfl, rfl, rfl, rfl, rfl, rfl, rfl⟩

@[simp] theorem uuid_proj :
    (uuid s).1 = s.uuidSrc s.uuidCount ∧
    (uuid s).2.s_albumsByName = s.s_albumsByName ∧
    (uuid s).2.s_albumsById = s.s_albumsById ∧
    (uuid s).2.s_albumsByCoverId = s.s_albumsByCoverId ∧
    (uuid s).2.heap = s.heap ∧
    (uuid s).2.databaseInstance = s.databaseInstance ∧
    (uuid s).2.databaseImpl = s.databaseImpl ∧
    (uuid s).2.uuidSrc = s.uuidSrc ∧
    (uuid s).2.uuidCount = s.uuidCount + 1 ∧
    (uuid s).2.decodes = s.decodes ∧
    (uuid s).2.mutexHeld = s.mutexHeld ∧
    (uuid s).2.unguarded = s.unguarded ∧
    (uuid s).2.getInfoLog = s.getInfoLog :=
  ⟨rfl, rfl, rfl, rfl, rfl, rfl, rfl, rfl, rfl, rfl, rfl, rfl, rfl⟩

@[simp] theorem coverId_proj (self : Album) :
    (Album.coverId s self).2.1.s_albumsByName = s.s_albumsByName ∧
    (Album.coverId s self).2.1.s_albumsById = s.s_albumsById ∧
    (Album.coverId s self).2.1.s_albumsByCoverId = s.s_albumsByCoverId ∧
    (Album.coverId s self).2.1.heap = s.heap ∧
    (Album.coverId s self).2.1.databaseInstance = s.databaseInstance ∧
    (Album.coverId s self).2.1.databaseImpl = s.databaseImpl ∧
    (Album.coverId s self).2.1.uuidSrc = s.uuidSrc ∧
    (Album.coverId s self).2.1.decodes = s.decodes ∧
    (Album.coverId s self).2.1.mutexHeld = s.mutexHeld ∧
    (Album.coverId s self).2.1.unguarded = s.unguarded ∧
    (Album.coverId s self).2.1.getInfoLog = s.getInfoLog := by
  unfold Album.coverId
  split <;> simp

@[simp] theorem uniqueId_proj (self : Album) :
    (Album.uniqueId s self).2.1.s_albumsByName = s.s_albumsByName ∧
    (Album.uniqueId s self).2.1.s_albumsById = s.s_albumsById ∧
    (Album.uniqueId s self).2.1.s_albumsByCoverId = s.s_albumsByCoverId ∧
    (Album.uniqueId s self).2.1.heap = s.heap ∧
    (Album.uniqueId s self).2.1.databaseInstance = s.databaseInstance ∧
    (Album.uniqueId s self).2.1.databaseImpl = s.databaseImpl ∧
    (Album.uniqueId s self).2.1.uuidSrc = s.uuidSrc ∧
    (Album.uniqueId s self).2.1.decodes = s.decodes ∧
    (Album.uniqueId s self).2.1.mutexHeld = s.mutexHeld ∧
    (Album.uniqueId s self).2.1.unguarded = s.unguarded ∧
    (Album.uniqueId s self).2.1.getInfoLog = s.getInfoLog := by
  unfold Album.uniqueId
  split <;> simp

end ghost

@[simp] theorem QHash.insert_same {K : Type} [DecidableEq K] (m : QHash K) (k : K)
    (v : album_ptr) : QHash.insert m k v k = some v := by
  simp [QHash.insert]

theorem QHash.insert_other {K : Type} [DecidableEq K] (m : QHash K) (k j : K)
    (v : album_ptr) (h : j ≠ k) : QHash.insert m k v j = m j := by
  simp [QHash.insert, h]

@[simp] theorem QHash.remove_same {K : Type} [DecidableEq K] (m : QHash K) (k : K) :
    QHash.remove m k k = none := by
  simp [QHash.remove]

theorem QHash.remove_other {K : Type} [DecidableEq K] (m : QHash K) (k j : K)
    (h : j ≠ k) : QHash.remove m k j = m j := by
  simp [QHash.remove, h]

/-! ## What each call does, branch by branch -/

theorem liveAlbum_some {s : State} {a : Handle} {self : Album} (h : liveAlbum s a = some self) :
    s.heap[a]? = some self ∧ self.alive = true := by
  unfold liveAlbum at h
  split at h
  · rename_i x hx
    split at h
    · rename_i hal
      cases h
      exact ⟨hx, hal⟩
    · cases h
  · cases h

theorem liveAlbum_of {s : State} {a : Handle} {self : Album} (h : s.heap[a]? = some self)
    (hal : self.alive = true) : liveAlbum s a = some self := by
  simp [liveAlbum, h, hal]

theorem liveAlbum_lt {s : State} {a : Handle} {self : Album} (h : liveAlbum s a = some self) :
    a < s.heap.length :=
  (List.getElem?_eq_some.1 (liveAlbum_some h).1).1

theorem heap_set_self {s : State} {a : Handle} {self : Album} (h : s.heap[a]? = some self) :
    s.heap.set a self = s.heap := by
  apply List.ext_getElem?
  intro i
  by_cases hi : a = i
  · subst hi
    rw [List.getElem?_set_self, h]
    simp [(List.getElem?_eq_some.1 h).1]
  · rw [List.getElem?_set_ne hi]

theorem Album.get_hit (s : State) (artist : Artist) (name : QString) (autoCreate : Bool)
    (idResult : Nat) (p : album_ptr)
    (h1 : s.databaseInstance = true) (h2 : s.databaseImpl = true)
    (hk : s.s_albumsByName (albumCacheKey artist name) = some p) :
    Album.get s artist name autoCreate idResult
      = (p, unlockMutex (mapAccess (mapAccess (lockMutex s)))) := by
  simp [Album.get, h1, h2, QHash.contains, QHash.value, hk]

theorem Album.get_miss (s : State) (artist : Artist) (name : QString) (autoCreate : Bool)
    (idResult : Nat)
    (h1 : s.databaseInstance = true) (h2 : s.databaseImpl = true)
    (hk : s.s_albumsByName (albumCacheKey artist name) = none) :
    (Album.get s artist name autoCreate idResult).1 = some s.heap.length ∧
    (Album.get s artist name autoCreate idResult).2.heap
      = s.heap ++ [Album.fresh s artist name idResult] ∧
    (Album.get s artist name autoCreate idResult).2.s_albumsByName
      = QHash.insert s.s_albumsByName (albumCacheKey artist name) (some s.heap.length) ∧
    (Album.get s artist name autoCreate idResult).2.s_albumsById = s.s_albumsById ∧
    (Album.get s artist name autoCreate idResult).2.s_albumsByCoverId
      = QHash.insert s.s_albumsByCoverId (s.uuidSrc s.uuidCount) (some s.heap.length) ∧
    (Album.get s artist name autoCreate idResult).2.uuidCount = s.uuidCount + 1 ∧
    (Album.get s artist name autoCreate idResult).2.uuidSrc = s.uuidSrc ∧
    (Album.get s artist name autoCreate idResult).2.databaseInstance = s.databaseInstance ∧
    (Album.get s artist name autoCreate idResult).2.databaseImpl = s.databaseImpl ∧
    (Album.get s artist name autoCreate idResult).2.decodes = s.decodes ∧
    (Album.get s artist name autoCreate idResult).2.mutexHeld = false ∧
    (Album.get s artist name autoCreate idResult).2.unguarded = s.unguarded ∧
    (Album.get s artist name autoCreate idResult).2.getInfoLog = s.getInfoLog := by
  simp [Album.get, h1, h2, QHash.contains, hk, Album.coverId, Album.pending,
    Album.setWeakRef, Album.loadId, Album.setIdFuture, Album.fresh, mapAccess_unguarded]

theorem Album.get_no_database (s : State) (artist : Artist) (name : QString)
    (autoCreate : Bool) (idResult : Nat)
    (h : s.databaseInstance = false ∨ s.databaseImpl = false) :
    Album.get s artist name autoCreate idResult = (none, s) := by
  unfold Album.get
  rcases h with h | h <;> simp [h]

theorem Album.getWithId_hit (s : State) (id : Nat) (name : QString) (artist : Artist)
    (p : album_ptr) (hk : s.s_albumsById id = some p) :
    Album.getWithId s id name artist
      = (p, unlockMutex (mapAccess (mapAccess (lockMutex s)))) := by
  simp [Album.getWithId, QHash.contains, QHash.value, hk]

theorem Album.getWithId_miss (s : State) (id : Nat) (name : QString) (artist : Artist)
    (hk : s.s_albumsById id = none) :
    (Album.getWithId s id name artist).1 = some s.heap.length ∧
    (Album.getWithId s id name artist).2.heap
      = s.heap ++ [Album.freshWithId s id name artist] ∧
    (Album.getWithId s id name artist).2.s_albumsByName
      = QHash.insert s.s_albumsByName (albumCacheKey artist name) (some s.heap.length) ∧
    (Album.getWithId s id name artist).2.s_albumsById
      = (if id > 0 then QHash.insert s.s_albumsById id (some s.heap.length)
         else s.s_albumsById) ∧
    (Album.getWithId s id name artist).2.s_albumsByCoverId
      = QHash.insert s.s_albumsByCoverId (s.uuidSrc s.uuidCount) (some s.heap.length) ∧
    (Album.getWithId s id name artist).2.uuidCount = s.uuidCount + 1 ∧
    (Album.getWithId s id name artist).2.uuidSrc = s.uuidSrc ∧
    (Album.getWithId s id name artist).2.databaseInstance = s.databaseInstance ∧
    (Album.getWithId s id name artist).2.databaseImpl = s.databaseImpl ∧
    (Album.getWithId s id name artist).2.decodes = s.decodes ∧
    (Album.getWithId s id name artist).2.mutexHeld = false ∧
    (Album.getWithId s id name artist).2.unguarded = s.unguarded ∧
    (Album.getWithId s id name artist).2.getInfoLog = s.getInfoLog := by
  by_cases hid : id > 0 <;>
  simp [Album.getWithId, QHash.contains, hk, Album.coverId, Album.withId,
    Album.setWeakRef, Album.freshWithId, mapAccess_unguarded, hid]

theorem Album.getByCoverId_spec (s : State) (u : QString) :
    (Album.getByCoverId s u).1 = (s.s_albumsByCoverId u).getD none ∧
    (Album.getByCoverId s u).2.heap = s.heap ∧
    (Album.getByCoverId s u).2.s_albumsByName = s.s_albumsByName ∧
    (Album.getByCoverId s u).2.s_albumsById = s.s_albumsById ∧
    (Album.getByCoverId s u).2.s_albumsByCoverId = s.s_albumsByCoverId ∧
    (Album.getByCoverId s u).2.uuidCount = s.uuidCount ∧
    (Album.getByCoverId s u).2.uuidSrc = s.uuidSrc ∧
    (Album.getByCoverId s u).2.databaseInstance = s.databaseInstance ∧
    (Album.getByCoverId s u).2.databaseImpl = s.databaseImpl ∧
    (Album.getByCoverId s u).2.decodes = s.decodes ∧
    (Album.getByCoverId s u).2.mutexHeld = false ∧
    (Album.getByCoverId s u).2.unguarded = s.unguarded ∧
    (Album.getByCoverId s u).2.getInfoLog = s.getInfoLog := by
  cases hk : s.s_albumsByCoverId u <;>
  simp [Album.getByCoverId, QHash.contains, QHash.value, hk, mapAccess_unguarded]

/-- The state the destructor leaves. -/
theorem Album.destroy_spec (s : State) (a : Handle) (self : Album)
    (hlive : liveAlbum s a = some self) :
    ∃ s1, Album.destroy s a = some s1 ∧
      s1.s_albumsByName
        = QHash.remove s.s_albumsByName (albumCacheKey self.m_artist self.m_name) ∧
      s1.s_albumsById = s.s_albumsById ∧
      s1.s_albumsByCoverId
        = QHash.remove s.s_albumsByCoverId (Album.coverId s self).1 ∧
      s1.heap = s.heap.set a
        { (Album.coverId s self).2.2 with m_ownRef := none, m_cover := none, alive := false } ∧
      s1.uuidCount = (Album.coverId s self).2.1.uuidCount ∧
      s1.uuidSrc = s.uuidSrc ∧
      s1.databaseInstance = s.databaseInstance ∧
      s1.databaseImpl = s.databaseImpl ∧
      s1.decodes = s.decodes ∧
      s1.mutexHeld = false ∧
      s1.unguarded = s.unguarded ∧
      s1.getInfoLog = s.getInfoLog := by
  refine ⟨_, by simp [Album.destroy, hlive]; rfl, ?_⟩
  simp [Album.coverId, mapAccess_unguarded]
  split <;> simp

theorem Album.id_resolved (s : State) (a : Handle) (self : Album)
    (hlive : liveAlbum s a = some self) (hw : self.m_waitingForId = false) :
    Album.id s a = some (self.m_id, s) := by
  simp [Album.id, hlive, hw]

theorem Album.id_unset (s : State) (a : Handle) (self : Album)
    (hlive : liveAlbum s a = some self) (hw : self.m_waitingForId = true)
    (hf : self.m_idFuture = none) :
    Album.id s a = none := by
  simp [Album.id, hlive, hw, hf]

theorem Album.id_dead (s : State) (a : Handle) (hlive : liveAlbum s a = none) :
    Album.id s a = none := by
  simp [Album.id, hlive]

theorem Album.id_pending (s : State) (a : Handle) (self : Album) (n : Nat)
    (hlive : liveAlbum s a = some self) (hw : self.m_waitingForId = true)
    (hf : self.m_idFuture = some n) :
    ∃ s1, Album.id s a = some (n, s1) ∧
      s1.heap = s.heap.set a { self with m_id := n, m_waitingForId := false } ∧
      s1.s_albumsByName = s.s_albumsByName ∧
      s1.s_albumsById
        = (if n > 0 then QHash.insert s.s_albumsById n self.m_ownRef else s.s_albumsById) ∧
      s1.s_albumsByCoverId = s.s_albumsByCoverId ∧
      s1.uuidCount = s.uuidCount ∧
      s1.uuidSrc = s.uuidSrc ∧
      s1.databaseInstance = s.databaseInstance ∧
      s1.databaseImpl = s.databaseImpl ∧
      s1.decodes = s.decodes ∧
      s1.mutexHeld = (if n > 0 then false else s.mutexHeld) ∧
      s1.unguarded = s.unguarded ∧
      s1.getInfoLog = s.getInfoLog := by
  by_cases hn : n > 0
  · refine ⟨_, by simp [Album.id, hlive, hw, hf, hn]; rfl, ?_⟩
    simp [hn, mapAccess_unguarded, hf]
  · refine ⟨_, by simp [Album.id, hlive, hw, hf, hn]; rfl, ?_⟩
    simp [hn, hf]

theorem Album.sameCore_refl (x : Album) : Album.SameCore x x :=
  ⟨rfl, rfl, rfl, rfl, rfl, rfl, rfl⟩

theorem Album.coverPixmap_fields (s : State) (self : Album) (size : QSize) :
    Album.SameCore self (Album.coverPixmap s self size).2 ∧
    (Album.coverPixmap s self size).2.m_coverLoaded = self.m_coverLoaded ∧
    (Album.coverPixmap s self size).2.m_coverLoading = self.m_coverLoading ∧
    (Album.coverPixmap s self size).2.m_coverId = self.m_coverId ∧
    (Album.coverPixmap s self size).2.m_uuid = self.m_uuid := by
  unfold Album.coverPixmap Album.SameCore
  split_ifs <;> (simp only []; split <;> try split) <;> (try split) <;> simp

theorem Album.uniqueId_fields (s : State) (self : Album) :
    Album.SameCore self (Album.uniqueId s self).2.2 ∧
    (Album.uniqueId s self).2.2.m_coverLoaded = self.m_coverLoaded ∧
    (Album.uniqueId s self).2.2.m_coverLoading = self.m_coverLoading ∧
    (Album.uniqueId s self).2.2.m_coverId = self.m_coverId ∧
    (Album.uniqueId s self).2.2.m_coverBuffer = self.m_coverBuffer ∧
    s.uuidCount ≤ (Album.uniqueId s self).2.1.uuidCount ∧
    (Album.uniqueId s self).2.1.uuidCount ≤ s.uuidCount + 1 := by
  unfold Album.uniqueId Album.SameCore
  split <;> simp

theorem Album.requestCover_fields (s : State) (a : Handle) (self : Album) :
    Album.SameCore self (Album.requestCover s a self).2 ∧
    (Album.requestCover s a self).2.m_coverLoaded = self.m_coverLoaded ∧
    (Album.requestCover s a self).2.m_coverLoading = true ∧
    (Album.requestCover s a self).2.m_coverId = self.m_coverId ∧
    (∃ rd, (Album.requestCover s a self).1.getInfoLog = s.getInfoLog ++ [(a, rd)]) ∧
    (Album.requestCover s a self).1.heap = s.heap ∧
    (Album.requestCover s a self).1.s_albumsByName = s.s_albumsByName ∧
    (Album.requestCover s a self).1.s_albumsById = s.s_albumsById ∧
    (Album.requestCover s a self).1.s_albumsByCoverId = s.s_albumsByCoverId ∧
    s.uuidCount ≤ (Album.requestCover s a self).1.uuidCount ∧
    (Album.requestCover s a self).1.uuidCount ≤ s.uuidCount + 1 ∧
    (Album.requestCover s a self).1.uuidSrc = s.uuidSrc ∧
    (Album.requestCover s a self).1.databaseInstance = s.databaseInstance ∧
    (Album.requestCover s a self).1.databaseImpl = s.databaseImpl ∧
    (Album.requestCover s a self).1.decodes = s.decodes ∧
    (Album.requestCover s a self).1.mutexHeld = s.mutexHeld ∧
    (Album.requestCover s a self).1.unguarded = s.unguarded := by
  obtain ⟨hc, h1, h2, h3, -, h5, h6⟩ := Album.uniqueId_fields s self
  unfold Album.SameCore at hc ⊢
  simp [Album.requestCover, hc, h1, h3, h5, h6]

theorem Album.cover_busy (s : State) (a : Handle) (size : QSize) (forceLoad : Bool)
    (self : Album) (hlive : liveAlbum s a = some self)
    (h : self.m_coverLoaded = true ∨ self.m_coverLoading = true) :
    Album.cover s a size forceLoad
      = some ((Album.coverPixmap s self size).1, store s a (Album.coverPixmap s self size).2) := by
  rcases h with h | h <;> simp [Album.cover, hlive, h]

theorem Album.cover_fetch (s : State) (a : Handle) (size : QSize)
    (self : Album) (hlive : liveAlbum s a = some self)
    (hl : self.m_coverLoaded = false) (hg : self.m_coverLoading = false) :
    Album.cover s a size true
      = some ((Album.coverPixmap (Album.requestCover s a self).1
                (Album.requestCover s a self).2 size).1,
              store (Album.requestCover s a self).1 a
                (Album.coverPixmap (Album.requestCover s a self).1
                  (Album.requestCover s a self).2 size).2) := by
  simp [Album.cover, hlive, hl, hg]

theorem Album.cover_idle (s : State) (a : Handle) (size : QSize)
    (self : Album) (hlive : liveAlbum s a = some self)
    (hl : self.m_coverLoaded = false) (hg : self.m_coverLoading = false) :
    Album.cover s a size false = some (QPixmap.null, s) := by
  simp [Album.cover, hlive, hl, hg]

/-- What `cover` does to the state. -/
theorem Album.cover_spec (s : State) (a : Handle) (size : QSize) (forceLoad : Bool)
    (self : Album) (hlive : liveAlbum s a = some self) :
    ∃ p s1 y, Album.cover s a size forceLoad = some (p, s1) ∧
      s1.heap = s.heap.set a y ∧
      Album.SameCore self y ∧
      y.m_coverLoaded = self.m_coverLoaded ∧
      y.m_coverId = self.m_coverId ∧
      y.m_coverLoading
        = (self.m_coverLoading || (!self.m_coverLoaded && forceLoad)) ∧
      (∃ rd, s1.getInfoLog = s.getInfoLog ++
        (if (!self.m_coverLoaded && !self.m_coverLoading && forceLoad) = true
          then [(a, rd)] else [])) ∧
      (self.m_coverLoaded = false → self.m_coverLoading = false → forceLoad = false →
        p = QPixmap.null) ∧
      s1.s_albumsByName = s.s_albumsByName ∧
      s1.s_albumsById = s.s_albumsById ∧
      s1.s_albumsByCoverId = s.s_albumsByCoverId ∧
      s.uuidCount ≤ s1.uuidCount ∧
      s1.uuidCount ≤ s.uuidCount + 1 ∧
      s1.uuidSrc = s.uuidSrc ∧
      s1.databaseInstance = s.databaseInstance ∧
      s1.databaseImpl = s.databaseImpl ∧
      s1.decodes = s.decodes ∧
      s1.mutexHeld = s.mutexHeld ∧
      s1.unguarded = s.unguarded := by
  have hself := (liveAlbum_some hlive).1
  have hdummy : InfoRequestData := ⟨[], InfoType.InfoAlbumCoverArt, [], []⟩
  by_cases hb : self.m_coverLoaded = true ∨ self.m_coverLoading = true
  · obtain ⟨c, c1, c2, c3, -⟩ := Album.coverPixmap_fields s self size
    refine ⟨_, _, (Album.coverPixmap s self size).2,
      Album.cover_busy s a size forceLoad self hlive hb, ?_⟩
    have hno : (!self.m_coverLoaded && !self.m_coverLoading && forceLoad) = false := by
      rcases hb with h | h <;> simp [h]
    have hld : (self.m_coverLoading || (!self.m_coverLoaded && forceLoad))
        = self.m_coverLoading := by
      rcases hb with h | h <;> simp [h]
    refine ⟨by simp, c, c1, c3, (by rw [c2, hld]), ⟨hdummy, by simp [hno]⟩, ?_, by simp, by simp,
      by simp, by simp, by simp, by simp, by simp, by simp, by simp, by simp, by simp⟩
    intro h1 h2 _
    rcases hb with h | h
    · rw [h1] at h; cases h
    · rw [h2] at h; cases h
  · have hl : self.m_coverLoaded = false := by
      cases h : self.m_coverLoaded
      · rfl
      · exact absurd (Or.inl h) hb
    have hg : self.m_coverLoading = false := by
      cases h : self.m_coverLoading
      · rfl
      · exact absurd (Or.inr h) hb
    cases forceLoad with
    | true =>
      obtain ⟨r, r1, r2, r3, ⟨rd, r4⟩, r5, r6, r7, r8, r9, r10, r11, r12, r13, r14, r15, r16⟩ :=
        Album.requestCover_fields s a self
      obtain ⟨c, c1, c2, c3, -⟩ :=
        Album.coverPixmap_fields (Album.requestCover s a self).1
          (Album.requestCover s a self).2 size
      refine ⟨_, _, (Album.coverPixmap (Album.requestCover s a self).1
          (Album.requestCover s a self).2 size).2,
        Album.cover_fetch s a size self hlive hl hg, ?_⟩
      refine ⟨by simp [r5], ?_, by rw [c1, r1], by rw [c3, r3], (by rw [c2, r2]; simp [hl]),
        ⟨rd, by simp [r4, hl, hg]⟩, (by intro _ _ h; cases h), by simp [r6], by simp [r7],
        by simp [r8], by simpa using r9, by simpa using r10, by simp [r11], by simp [r12],
        by simp [r13], by simp [r14], by simp [r15], by simp [r16]⟩
      unfold Album.SameCore at c r ⊢
      simp [c, r]
    | false =>
      refine ⟨QPixmap.null, s, self, Album.cover_idle s a size self hlive hl hg, ?_⟩
      simp [heap_set_self hself, Album.sameCore_refl, hl, hg]
      exact ⟨hdummy, trivial⟩

theorem Album.coverId_fields (s : State) (self : Album) :
    Album.SameCore self (Album.coverId s self).2.2 ∧
    (Album.coverId s self).2.2.m_coverLoaded = self.m_coverLoaded ∧
    (Album.coverId s self).2.2.m_coverLoading = self.m_coverLoading ∧
    (self.m_coverId ≠ [] → (Album.coverId s self).1 = self.m_coverId) ∧
    s.uuidCount ≤ (Album.coverId s self).2.1.uuidCount ∧
    (Album.coverId s self).2.1.uuidCount ≤ s.uuidCount + 1 := by
  unfold Album.coverId Album.SameCore
  split
  · rename_i h
    simp
    intro h2
    exact absurd (List.isEmpty_iff.1 h) h2
  · simp

theorem Album.coverId_from (s : State) (self : Album) :
    (Album.coverId s self).2.2.m_coverId = self.m_coverId ∨
    ((Album.coverId s self).2.2.m_coverId = s.uuidSrc s.uuidCount ∧
      (Album.coverId s self).2.1.uuidCount = s.uuidCount + 1) := by
  unfold Album.coverId
  split <;> simp

theorem Album.infoSystemInfo_skip (s : State) (a : Handle) (rd : InfoRequestData)
    (out : QVariant) (self : Album) (hlive : liveAlbum s a = some self)
    (h : Album.accepts s self rd = false ∨ (out.isNull = false ∧ out.isValid = false)) :
    Album.infoSystemInfo s a rd out
      = some (store (Album.uniqueId s self).2.1 a (Album.uniqueId s self).2.2) := by
  rcases h with h | ⟨h1, h2⟩
  · simp only [Album.accepts, Bool.and_eq_false_iff, decide_eq_false_iff_not] at h
    have h3 : rd.caller ≠ (Album.uniqueId s self).1 ∨ rd.type ≠ InfoType.InfoAlbumCoverArt := h
    simp [Album.infoSystemInfo, hlive, h3]
  · simp [Album.infoSystemInfo, hlive, h1, h2]

theorem Album.infoSystemInfo_null (s : State) (a : Handle) (rd : InfoRequestData)
    (out : QVariant) (self : Album) (hlive : liveAlbum s a = some self)
    (h : Album.accepts s self rd = true) (hn : out.isNull = true) :
    Album.infoSystemInfo s a rd out
      = some (store (Album.uniqueId s self).2.1 a
          { (Album.uniqueId s self).2.2 with m_coverLoaded := true }) := by
  simp only [Album.accepts, Bool.and_eq_true, decide_eq_true_eq] at h
  simp [Album.infoSystemInfo, hlive, h.1, h.2, hn]

theorem Album.takeCover_fields (self : Album) (out : QVariant) :
    Album.SameCore self (Album.takeCover self out) ∧
    (Album.takeCover self out).m_coverLoaded = true ∧
    (Album.takeCover self out).m_coverLoading = self.m_coverLoading ∧
    (Album.takeCover self out).m_coverId = self.m_coverId := by
  unfold Album.takeCover Album.SameCore
  by_cases h : out.imgbytes.length ≠ 0 <;> simp [h]

theorem Album.renewCoverId_spec (s : State) (self : Album) :
    ∃ kold k,
      Album.SameCore self (Album.renewCoverId s self).2 ∧
      (Album.renewCoverId s self).2.m_coverLoaded = self.m_coverLoaded ∧
      (Album.renewCoverId s self).2.m_coverLoading = self.m_coverLoading ∧
      (Album.renewCoverId s self).2.m_coverId = s.uuidSrc k ∧
      s.uuidCount ≤ k ∧ k < (Album.renewCoverId s self).1.uuidCount ∧
      (Album.renewCoverId s self).1.uuidCount ≤ s.uuidCount + 2 ∧
      (self.m_coverId ≠ [] → kold = self.m_coverId) ∧
      (Album.renewCoverId s self).1.s_albumsByCoverId
        = QHash.insert (QHash.remove s.s_albumsByCoverId kold) (s.uuidSrc k) self.m_ownRef ∧
      (Album.renewCoverId s self).1.s_albumsByName = s.s_albumsByName ∧
      (Album.renewCoverId s self).1.s_albumsById = s.s_albumsById ∧
      (Album.renewCoverId s self).1.heap = s.heap ∧
      (Album.renewCoverId s self).1.uuidSrc = s.uuidSrc ∧
      (Album.renewCoverId s self).1.databaseInstance = s.databaseInstance ∧
      (Album.renewCoverId s self).1.databaseImpl = s.databaseImpl ∧
      (Album.renewCoverId s self).1.decodes = s.decodes ∧
      (Album.renewCoverId s self).1.mutexHeld = s.mutexHeld ∧
      (Album.renewCoverId s self).1.unguarded
        = (if s.mutexHeld then s.unguarded else s.unguarded + 2) ∧
      (Album.renewCoverId s self).1.getInfoLog = s.getInfoLog := by
  obtain ⟨cc, cl, cg, ck, c5, c6⟩ := Album.coverId_fields s self
  unfold Album.SameCore at cc ⊢
  refine ⟨(Album.coverId s self).1, (Album.coverId s self).2.1.uuidCount, ?_⟩
  simp [Album.renewCoverId, cc, cl, cg, c5, c6, mapAccess_unguarded]
  refine ⟨ck, ?_⟩
  split <;> simp

theorem Album.infoSystemInfo_valid_eq (s : State) (a : Handle) (rd : InfoRequestData)
    (out : QVariant) (self : Album) (hlive : liveAlbum s a = some self)
    (h : Album.accepts s self rd = true) (hn : out.isNull = false) (hv : out.isValid = true) :
    Album.infoSystemInfo s a rd out
      = some (store
          (Album.renewCoverId (Album.uniqueId s self).2.1
            (Album.takeCover (Album.uniqueId s self).2.2 out)).1 a
          (Album.renewCoverId (Album.uniqueId s self).2.1
            (Album.takeCover (Album.uniqueId s self).2.2 out)).2) := by
  simp only [Album.accepts, Bool.and_eq_true, decide_eq_true_eq] at h
  simp [Album.infoSystemInfo, hlive, h.1, h.2, hn, hv]

/-- The valid-result branch of `infoSystemInfo`. -/
theorem Album.infoSystemInfo_valid (s : State) (a : Handle) (rd : InfoRequestData)
    (out : QVariant) (self : Album) (hlive : liveAlbum s a = some self)
    (h : Album.accepts s self rd = true) (hn : out.isNull = false) (hv : out.isValid = true) :
    ∃ s1 y kold k,
      Album.infoSystemInfo s a rd out = some s1 ∧
      s1.heap = s.heap.set a y ∧
      Album.SameCore self y ∧
      y.m_coverLoaded = true ∧
      y.m_coverLoading = self.m_coverLoading ∧
      y.m_coverId = s.uuidSrc k ∧
      s.uuidCount ≤ k ∧ k < s1.uuidCount ∧ s1.uuidCount ≤ s.uuidCount + 3 ∧
      (self.m_coverId ≠ [] → kold = self.m_coverId) ∧
      s1.s_albumsByCoverId
        = QHash.insert (QHash.remove s.s_albumsByCoverId kold) (s.uuidSrc k) self.m_ownRef ∧
      s1.s_albumsByName = s.s_albumsByName ∧
      s1.s_albumsById = s.s_albumsById ∧
      s1.uuidSrc = s.uuidSrc ∧
      s1.databaseInstance = s.databaseInstance ∧
      s1.databaseImpl = s.databaseImpl ∧
      s1.decodes = s.decodes ∧
      s1.mutexHeld = s.mutexHeld ∧
      s1.unguarded = (if s.mutexHeld then s.unguarded else s.unguarded + 2) ∧
      s1.getInfoLog = s.getInfoLog := by
  obtain ⟨uc, ul, ug, ui, -, u5, u6⟩ := Album.uniqueId_fields s self
  obtain ⟨p1, p2, p3, p4, p5, p6, p7, p8, p9, p10, p11⟩ := uniqueId_proj s self
  obtain ⟨tc, tl, tg, ti⟩ := Album.takeCover_fields (Album.uniqueId s self).2.2 out
  obtain ⟨kold, k, n1, n2, n3, n4, n5, n6, n7, n8, n9, n10, n11, n12, n13, n14, n15, n16, n17,
    n18, n19⟩ := Album.renewCoverId_spec (Album.uniqueId s self).2.1
      (Album.takeCover (Album.uniqueId s self).2.2 out)
  refine ⟨_, (Album.renewCoverId (Album.uniqueId s self).2.1
      (Album.takeCover (Album.uniqueId s self).2.2 out)).2, kold, k,
    Album.infoSystemInfo_valid_eq s a rd out self hlive h hn hv, ?_⟩
  unfold Album.SameCore at uc tc n1 ⊢
  refine ⟨by simp [n12, p4], by simp [n1, tc, uc], by rw [n2, tl], by rw [n3, tg, ug],
    by rw [n4, p7], by omega, by simpa using n6, by simp; omega,
    (by intro hne; rw [n8 (by rw [ti, ui]; exact hne), ti, ui]),
    by simp [n9, p3, p7, tc, uc], by simp [n10, p1], by simp [n11, p2], by simp [n13, p7],
    by simp [n14, p5], by simp [n15, p6], by simp [n16, p8], by simp [n17, p9],
    by simp [n18, p9, p10], by simp [n19, p11]⟩

theorem Album.infoSystemFinished_spec (s : State) (a : Handle) (target : QString)
    (self : Album) (hlive : liveAlbum s a = some self) :
    ∃ s1 y, Album.infoSystemFinished s a target = some s1 ∧
      s1.heap = s.heap.set a y ∧
      Album.SameCore self y ∧
      y.m_coverLoaded = self.m_coverLoaded ∧
      y.m_coverId = self.m_coverId ∧
      y.m_coverLoading
        = (self.m_coverLoading && !decide (target = (Album.uniqueId s self).1)) ∧
      s1.s_albumsByCoverId = s.s_albumsByCoverId ∧
      s1.s_albumsByName = s.s_albumsByName ∧
      s1.s_albumsById = s.s_albumsById ∧
      s.uuidCount ≤ s1.uuidCount ∧
      s1.uuidCount ≤ s.uuidCount + 1 ∧
      s1.uuidSrc = s.uuidSrc ∧
      s1.databaseInstance = s.databaseInstance ∧
      s1.databaseImpl = s.databaseImpl ∧
      s1.decodes = s.decodes ∧
      s1.mutexHeld = s.mutexHeld ∧
      s1.unguarded = s.unguarded ∧
      s1.getInfoLog = s.getInfoLog := by
  obtain ⟨uc, ul, ug, ui, -, u5, u6⟩ := Album.uniqueId_fields s self
  unfold Album.SameCore at uc ⊢
  by_cases ht : target = (Album.uniqueId s self).1
  · refine ⟨store (Album.uniqueId s self).2.1 a
      { (Album.uniqueId s self).2.2 with
        infoConnections := 0, finishedConnections := 0, m_coverLoading := false },
      { (Album.uniqueId s self).2.2 with
        infoConnections := 0, finishedConnections := 0, m_coverLoading := false },
      by simp [Album.infoSystemFinished, hlive, ← ht], by simp, ?_⟩
    simp [uc, ul, ui, u5, u6, ← ht]
  · refine ⟨store (Album.uniqueId s self).2.1 a (Album.uniqueId s self).2.2,
      (Album.uniqueId s self).2.2,
      by simp [Album.infoSystemFinished, hlive, ht], by simp, ?_⟩
    simp [uc, ul, ug, ui, u5, u6, ht]

/-! ## One step, classified -/

theorem Album.destroy_dead (s : State) (a : Handle) (h : liveAlbum s a = none) :
    Album.destroy s a = none := by
  simp [Album.destroy, h]

theorem Album.cover_dead (s : State) (a : Handle) (size : QSize) (forceLoad : Bool)
    (h : liveAlbum s a = none) : Album.cover s a size forceLoad = none := by
  simp [Album.cover, h]

theorem Album.infoSystemInfo_dead (s : State) (a : Handle) (rd : InfoRequestData)
    (out : QVariant) (h : liveAlbum s a = none) : Album.infoSystemInfo s a rd out = none := by
  simp [Album.infoSystemInfo, h]

theorem Album.infoSystemFinished_dead (s : State) (a : Handle) (target : QString)
    (h : liveAlbum s a = none) : Album.infoSystemFinished s a target = none := by
  simp [Album.infoSystemFinished, h]

theorem Step.quiet_refl (s : State) : Step.Quiet s s := ⟨rfl, rfl, rfl, rfl⟩

/-- The environment never changes and the generator only moves forward. -/
theorem step_env (s : State) (op : Op) :
    (step s op).uuidSrc = s.uuidSrc ∧ s.uuidCount ≤ (step s op).uuidCount ∧
    (step s op).databaseInstance = s.databaseInstance ∧
    (step s op).databaseImpl = s.databaseImpl := by
  cases op with
  | get artist name autoCreate idResult =>
    simp only [step]
    by_cases hdb : s.databaseInstance = true ∧ s.databaseImpl = true
    · cases hk : s.s_albumsByName (albumCacheKey artist name) with
      | none =>
        obtain ⟨-, -, -, -, -, h6, h7, h8, h9, -⟩ :=
          Album.get_miss s artist name autoCreate idResult hdb.1 hdb.2 hk
        exact ⟨h7, by omega, h8, h9⟩
      | some p =>
        rw [Album.get_hit s artist name autoCreate idResult p hdb.1 hdb.2 hk]
        simp
    · rw [Album.get_no_database s artist name autoCreate idResult (by
        by_cases h1 : s.databaseInstance = true
        · right
          cases h2 : s.databaseImpl
          · rfl
          · exact absurd ⟨h1, h2⟩ hdb
        · left
          simpa using h1)]
      simp
  | getWithId id name artist =>
    simp only [step]
    cases hk : s.s_albumsById id with
    | none =>
      obtain ⟨-, -, -, -, -, h6, h7, h8, h9, -⟩ := Album.getWithId_miss s id name artist hk
      exact ⟨h7, by omega, h8, h9⟩
    | some p =>
      rw [Album.getWithId_hit s id name artist p hk]
      simp
  | getByCoverId u =>
    simp only [step]
    obtain ⟨-, -, -, -, -, h6, h7, h8, h9, -⟩ := Album.getByCoverId_spec s u
    exact ⟨h7, by omega, h8, h9⟩
  | id a =>
    simp only [step]
    cases hl : liveAlbum s a with
    | none => simp [Album.id_dead s a hl]
    | some self =>
      cases hw : self.m_waitingForId with
      | false => simp [Album.id_resolved s a self hl hw]
      | true =>
        cases hf : self.m_idFuture with
        | none => simp [Album.id_unset s a self hl hw hf]
        | some n =>
          obtain ⟨s1, h0, -, -, -, -, h5, h6, h7, h8, -⟩ := Album.id_pending s a self n hl hw hf
          simp [h0, h5, h6, h7, h8]
  | destroy a =>
    simp only [step]
    cases hl : liveAlbum s a with
    | none => simp [Album.destroy_dead s a hl]
    | some self =>
      obtain ⟨s1, h0, -, -, -, -, h5, h6, h7, h8, -⟩ := Album.destroy_spec s a self hl
      obtain ⟨-, -, -, -, c5, -⟩ := Album.coverId_fields s self
      simp [h0, h5, h6, h7, h8, c5]
  | cover a size forceLoad =>
    simp only [step]
    cases hl : liveAlbum s a with
    | none => simp [Album.cover_dead s a size forceLoad hl]
    | some self =>
      obtain ⟨p, s1, y, h0, -, -, -, -, -, -, -, -, -, -, h5, -, h6, h7, h8, -⟩ :=
        Album.cover_spec s a size forceLoad self hl
      simp [h0, h5, h6, h7, h8]
  | infoSystemInfo a rd out =>
    simp only [step]
    cases hl : liveAlbum s a with
    | none => simp [Album.infoSystemInfo_dead s a rd out hl]
    | some self =>
      obtain ⟨-, -, -, -, -, u5, -⟩ := Album.uniqueId_fields s self
      by_cases hacc : Album.accepts s self rd = true
      · cases hn : out.isNull with
        | true =>
          rw [Album.infoSystemInfo_null s a rd out self hl hacc hn]
          simp [u5]
        | false =>
          cases hv : out.isValid with
          | true =>
            obtain ⟨s1, y, kold, k, h0, -, -, -, -, -, h5, h6, -, -, -, -, -, h7, h8, h9, -⟩ :=
              Album.infoSystemInfo_valid s a rd out self hl hacc hn hv
            simp [h0, h7, h8, h9]
            omega
          | false =>
            rw [Album.infoSystemInfo_skip s a rd out self hl (Or.inr ⟨hn, hv⟩)]
            simp [u5]
      · rw [Album.infoSystemInfo_skip s a rd out self hl (Or.inl (by simpa using hacc))]
        simp [u5]
  | infoSystemFinished a target =>
    simp only [step]
    cases hl : liveAlbum s a with
    | none => simp [Album.infoSystemFinished_dead s a target hl]
    | some self =>
      obtain ⟨s1, y, h0, -, -, -, -, -, -, -, -, h5, -, h6, h7, h8, -⟩ :=
        Album.infoSystemFinished_spec s a target self hl
      simp [h0, h5, h6, h7, h8]

theorem not_both_true {p q : Bool} (h : ¬(p = true ∧ q = true)) : p = false ∨ q = false := by
  cases p <;> cases q <;> simp at h ⊢

/-- Every step is of one of seven kinds. -/
theorem step_cases (s : State) (op : Op) :
    Step.Quiet s (step s op) ∨ Step.NewByName s (step s op) op ∨
    Step.NewById s (step s op) op ∨ Step.Resolve s (step s op) op ∨
    Step.Destroy s (step s op) op ∨ Step.Cover s (step s op) ∨
    Step.Renew s (step s op) op := by
  cases op with
  | get artist name autoCreate idResult =>
    by_cases hdb : s.databaseInstance = true ∧ s.databaseImpl = true
    · cases hk : s.s_albumsByName (albumCacheKey artist name) with
      | none =>
        obtain ⟨-, h2, h3, h4, h5, h6, -⟩ :=
          Album.get_miss s artist name autoCreate idResult hdb.1 hdb.2 hk
        exact Or.inr (Or.inl ⟨artist, name, autoCreate, idResult, rfl, hk, h2, h3, h4, h5, h6⟩)
      | some p =>
        left
        simp only [step]
        rw [Album.get_hit s artist name autoCreate idResult p hdb.1 hdb.2 hk]
        simp [Step.Quiet]
    · left
      simp only [step]
      rw [Album.get_no_database s artist name autoCreate idResult (not_both_true hdb)]
      exact Step.quiet_refl s
  | getWithId id name artist =>
    cases hk : s.s_albumsById id with
    | none =>
      obtain ⟨-, h2, h3, h4, h5, h6, -⟩ := Album.getWithId_miss s id name artist hk
      exact Or.inr (Or.inr (Or.inl ⟨id, name, artist, rfl, hk, h2, h3, h4, h5, h6⟩))
    | some p =>
      left
      simp only [step]
      rw [Album.getWithId_hit s id name artist p hk]
      simp [Step.Quiet]
  | getByCoverId u =>
    left
    obtain ⟨-, h2, h3, h4, h5, -⟩ := Album.getByCoverId_spec s u
    exact ⟨h2, h3, h4, h5⟩
  | id a =>
    cases hl : liveAlbum s a with
    | none =>
      left
      simp only [step, Album.id_dead s a hl]
      exact Step.quiet_refl s
    | some self =>
      cases hw : self.m_waitingForId with
      | false =>
        left
        simp only [step, Album.id_resolved s a self hl hw]
        exact Step.quiet_refl s
      | true =>
        cases hf : self.m_idFuture with
        | none =>
          left
          simp only [step, Album.id_unset s a self hl hw hf]
          exact Step.quiet_refl s
        | some n =>
          obtain ⟨s1, h0, h1, h2, h3, h4, -⟩ := Album.id_pending s a self n hl hw hf
          refine Or.inr (Or.inr (Or.inr (Or.inl ⟨a, self, n, rfl, hl, hw, hf, ?_⟩)))
          simp only [step, h0]
          exact ⟨h1, h2, h3, h4⟩
  | destroy a =>
    cases hl : liveAlbum s a with
    | none =>
      left
      simp only [step, Album.destroy_dead s a hl]
      exact Step.quiet_refl s
    | some self =>
      obtain ⟨s1, h0, h1, h2, h3, h4, h5, h6, -⟩ := Album.destroy_spec s a self hl
      obtain ⟨cc, -, -, ck, c5, c6⟩ := Album.coverId_fields s self
      refine Or.inr (Or.inr (Or.inr (Or.inr (Or.inl
        ⟨a, self, { (Album.coverId s self).2.2 with
            m_ownRef := none, m_cover := none, alive := false },
          (Album.coverId s self).1, rfl, hl, ?_⟩))))
      simp only [step, h0, Option.getD_some]
      refine ⟨h4, ?_, trivial, ?_, ck, h1, h2, h3⟩
      · unfold Album.SameCore at cc
        unfold Album.SameId
        simp [cc]
      · rcases Album.coverId_from s self with h | ⟨h, hc⟩
        · exact Or.inl h
        · exact Or.inr ⟨s.uuidCount, le_refl _, by rw [h5, hc]; omega, h⟩
  | cover a size forceLoad =>
    cases hl : liveAlbum s a with
    | none =>
      left
      simp only [step, Album.cover_dead s a size forceLoad hl]
      exact Step.quiet_refl s
    | some self =>
      obtain ⟨p, s1, y, h0, h1, h2, -, h3, -, -, -, h4, h5, h6, -⟩ :=
        Album.cover_spec s a size forceLoad self hl
      refine Or.inr (Or.inr (Or.inr (Or.inr (Or.inr (Or.inl ⟨a, self, y, hl, ?_⟩)))))
      simp only [step, h0]
      exact ⟨h1, h2, h3, h4, h5, h6⟩
  | infoSystemInfo a rd out =>
    cases hl : liveAlbum s a with
    | none =>
      left
      simp only [step, Album.infoSystemInfo_dead s a rd out hl]
      exact Step.quiet_refl s
    | some self =>
      obtain ⟨uc, -, -, ui, -, -, -⟩ := Album.uniqueId_fields s self
      have hskip : ∀ y : Album, Album.SameCore self y → y.m_coverId = self.m_coverId →
          Album.infoSystemInfo s a rd out = some (store (Album.uniqueId s self).2.1 a y) →
          Step.Cover s (step s (Op.infoSystemInfo a rd out)) := by
        intro y hy hyc heq
        refine ⟨a, self, y, hl, ?_⟩
        simp only [step, heq]
        simp [hy, hyc]
      by_cases hacc : Album.accepts s self rd = true
      · cases hn : out.isNull with
        | true =>
          refine Or.inr (Or.inr (Or.inr (Or.inr (Or.inr (Or.inl (hskip _ ?_ ?_
            (Album.infoSystemInfo_null s a rd out self hl hacc hn)))))))
          · unfold Album.SameCore at uc ⊢
            simp [uc]
          · simp [ui]
        | false =>
          cases hv : out.isValid with
          | true =>
            obtain ⟨s1, y, kold, k, h0, h1, h2, -, -, h3, h4, h5, -, h6, h7, h8, h9, -⟩ :=
              Album.infoSystemInfo_valid s a rd out self hl hacc hn hv
            refine Or.inr (Or.inr (Or.inr (Or.inr (Or.inr (Or.inr
              ⟨a, rd, out, self, y, kold, k, rfl, hl, ?_⟩)))))
            simp only [step, h0, Option.getD_some]
            exact ⟨h1, h2, h3, h4, h5, h6, h8, h9, h7⟩
          | false =>
            exact Or.inr (Or.inr (Or.inr (Or.inr (Or.inr (Or.inl (hskip _ uc ui
              (Album.infoSystemInfo_skip s a rd out self hl (Or.inr ⟨hn, hv⟩))))))))
      · exact Or.inr (Or.inr (Or.inr (Or.inr (Or.inr (Or.inl (hskip _ uc ui
          (Album.infoSystemInfo_skip s a rd out self hl (Or.inl (by simpa using hacc)))))))))
  | infoSystemFinished a target =>
    cases hl : liveAlbum s a with
    | none =>
      left
      simp only [step, Album.infoSystemFinished_dead s a target hl]
      exact Step.quiet_refl s
    | some self =>
      obtain ⟨s1, y, h0, h1, h2, -, h3, -, h4, h5, h6, -⟩ :=
        Album.infoSystemFinished_spec s a target self hl
      refine Or.inr (Or.inr (Or.inr (Or.inr (Or.inr (Or.inl ⟨a, self, y, hl, ?_⟩)))))
      simp only [step, h0]
      exact ⟨h1, h2, h3, h5, h6, h4⟩

/-! ## Claims about single calls -/

/-- C8. Without a persistence backend (no `Database::instance()`, or no
`impl()` behind it) the name-based `Album::get` returns the null handle and
leaves the whole state as it was: no instance is constructed and none of
`s_albumsByName`, `s_albumsById`, `s_albumsByCoverId` changes. -/
theorem Album.get_without_database (s : State) (artist : Artist) (name : QString)
    (autoCreate : Bool) (idResult : Nat)
    (h : s.databaseInstance = false ∨ s.databaseImpl = false) :
    (Album.get s artist name autoCreate idResult).1 = none ∧
    (Album.get s artist name autoCreate idResult).2 = s ∧
    (Album.get s artist name autoCreate idResult).2.heap = s.heap ∧
    (Album.get s artist name autoCreate idResult).2.s_albumsByName = s.s_albumsByName ∧
    (Album.get s artist name autoCreate idResult).2.s_albumsById = s.s_albumsById ∧
    (Album.get s artist name autoCreate idResult).2.s_albumsByCoverId
      = s.s_albumsByCoverId := by
  rw [Album.get_no_database s artist name autoCreate idResult h]
  exact ⟨rfl, rfl, rfl, rfl, rfl, rfl⟩

theorem Album.get_without_database_witness :
    (sampleStateNoDb.databaseInstance = false ∨ sampleStateNoDb.databaseImpl = false) ∧
    (Album.get sampleStateNoDb sampleArtist ['X'] true 5).1 = none ∧
    (Album.get sampleStateNoDb sampleArtist ['X'] true 5).2 = sampleStateNoDb ∧
    (Album.get sampleStateNoDb sampleArtist ['X'] true 5).2.heap = sampleStateNoDb.heap ∧
    (Album.get sampleStateNoDb sampleArtist ['X'] true 5).2.s_albumsByName
      = sampleStateNoDb.s_albumsByName ∧
    (Album.get sampleStateNoDb sampleArtist ['X'] true 5).2.s_albumsById
      = sampleStateNoDb.s_albumsById ∧
    (Album.get sampleStateNoDb sampleArtist ['X'] true 5).2.s_albumsByCoverId
      = sampleStateNoDb.s_albumsByCoverId :=
  ⟨Or.inr rfl, Album.get_without_database sampleStateNoDb sampleArtist ['X'] true 5 (Or.inr rfl)⟩

/-- C1. With a backend present, two consecutive name-based lookups with the
same artist and name (any `autoCreate` flags, any id the worker would report)
return the same handle, and the second one constructs nothing and leaves the
three hashes as the first one left them. -/
theorem Album.get_twice (s : State) (artist : Artist) (name : QString)
    (autoCreate1 autoCreate2 : Bool) (idResult1 idResult2 : Nat)
    (hdb : s.databaseInstance = true ∧ s.databaseImpl = true) :
    (Album.get (Album.get s artist name autoCreate1 idResult1).2
        artist name autoCreate2 idResult2).1
      = (Album.get s artist name autoCreate1 idResult1).1 ∧
    (Album.get (Album.get s artist name autoCreate1 idResult1).2
        artist name autoCreate2 idResult2).2.heap
      = (Album.get s artist name autoCreate1 idResult1).2.heap ∧
    (Album.get (Album.get s artist name autoCreate1 idResult1).2
        artist name autoCreate2 idResult2).2.s_albumsByName
      = (Album.get s artist name autoCreate1 idResult1).2.s_albumsByName ∧
    (Album.get (Album.get s artist name autoCreate1 idResult1).2
        artist name autoCreate2 idResult2).2.s_albumsById
      = (Album.get s artist name autoCreate1 idResult1).2.s_albumsById ∧
    (Album.get (Album.get s artist name autoCreate1 idResult1).2
        artist name autoCreate2 idResult2).2.s_albumsByCoverId
      = (Album.get s artist name autoCreate1 idResult1).2.s_albumsByCoverId := by
  obtain ⟨h1, h2⟩ := hdb
  cases hk : s.s_albumsByName (albumCacheKey artist name) with
  | some p =>
    rw [Album.get_hit s artist name autoCreate1 idResult1 p h1 h2 hk]
    rw [Album.get_hit _ artist name autoCreate2 idResult2 p (by simpa using h1)
      (by simpa using h2) (by simpa using hk)]
    simp
  | none =>
    obtain ⟨r1, rh, rn, ri, rc, -, -, rdi, rdm, -⟩ :=
      Album.get_miss s artist name autoCreate1 idResult1 h1 h2 hk
    have hk2 : (Album.get s artist name autoCreate1 idResult1).2.s_albumsByName
        (albumCacheKey artist name) = some (some s.heap.length) := by
      rw [rn]; simp
    rw [Album.get_hit _ artist name autoCreate2 idResult2 _ (by rw [rdi]; exact h1)
      (by rw [rdm]; exact h2) hk2]
    simp [r1]

theorem Album.get_twice_witness :
    (sampleState.databaseInstance = true ∧ sampleState.databaseImpl = true) ∧
    (Album.get (Album.get sampleState sampleArtist ['X'] true 5).2
        sampleArtist ['X'] false 7).1
      = (Album.get sampleState sampleArtist ['X'] true 5).1 ∧
    (Album.get (Album.get sampleState sampleArtist ['X'] true 5).2
        sampleArtist ['X'] false 7).2.heap
      = (Album.get sampleState sampleArtist ['X'] true 5).2.heap ∧
    (Album.get (Album.get sampleState sampleArtist ['X'] true 5).2
        sampleArtist ['X'] false 7).2.s_albumsByName
      = (Album.get sampleState sampleArtist ['X'] true 5).2.s_albumsByName ∧
    (Album.get (Album.get sampleState sampleArtist ['X'] true 5).2
        sampleArtist ['X'] false 7).2.s_albumsById
      = (Album.get sampleState sampleArtist ['X'] true 5).2.s_albumsById ∧
    (Album.get (Album.get sampleState sampleArtist ['X'] true 5).2
        sampleArtist ['X'] false 7).2.s_albumsByCoverId
      = (Album.get sampleState sampleArtist ['X'] true 5).2.s_albumsByCoverId :=
  ⟨⟨rfl, rfl⟩, Album.get_twice sampleState sampleArtist ['X'] true false 5 7 ⟨rfl, rfl⟩⟩

/-- C4. Destroying a live instance `a` removes the `s_albumsByName` entry
under the cache key of its artist and name and the `s_albumsByCoverId` entry
under its cover id; with a backend present, the next name-based lookup of
that artist and name returns a handle `b` that is not `a`, was not constructed
before, and denotes a live, pending instance with that artist and name. -/
theorem Album.destroy_then_get (s : State) (a : Handle) (self : Album)
    (autoCreate : Bool) (idResult : Nat)
    (hlive : liveAlbum s a = some self)
    (hdb : s.databaseInstance = true ∧ s.databaseImpl = true) :
    ∃ s1, Album.destroy s a = some s1 ∧
      s1.s_albumsByName (albumCacheKey self.m_artist self.m_name) = none ∧
      s1.s_albumsByCoverId (Album.coverId s self).1 = none ∧
      liveAlbum s1 a = none ∧
      ∃ b fresh, (Album.get s1 self.m_artist self.m_name autoCreate idResult).1 = some b ∧
        b ≠ a ∧ s1.heap[b]? = none ∧
        liveAlbum (Album.get s1 self.m_artist self.m_name autoCreate idResult).2 b
          = some fresh ∧
        fresh.m_name = self.m_name ∧ fresh.m_artist = self.m_artist ∧
        fresh.m_waitingForId = true := by
  obtain ⟨s1, h0, h1, h2, h3, h4, h5, h6, h7, h8, -⟩ := Album.destroy_spec s a self hlive
  have hlt := liveAlbum_lt hlive
  have hlen : s1.heap.length = s.heap.length := by rw [h4]; simp
  have hk : s1.s_albumsByName (albumCacheKey self.m_artist self.m_name) = none := by
    rw [h1]; simp
  refine ⟨s1, h0, hk, by rw [h3]; simp, ?_, ?_⟩
  · simp [liveAlbum, h4, List.getElem?_set_self hlt]
  · obtain ⟨g1, g2, -⟩ := Album.get_miss s1 self.m_artist self.m_name autoCreate idResult
      (by rw [h7]; exact hdb.1) (by rw [h8]; exact hdb.2) hk
    refine ⟨s1.heap.length, Album.fresh s1 self.m_artist self.m_name idResult, g1, ?_, ?_, ?_,
      rfl, rfl, rfl⟩
    · exact Nat.ne_of_gt (hlen ▸ hlt)
    · simp
    · simp [liveAlbum, g2, Album.fresh, Album.pending]

theorem Album.destroy_then_get_witness :
    (liveAlbum sampleOne 0 = some (Album.fresh sampleState sampleArtist ['X'] 5) ∧
      sampleOne.databaseInstance = true ∧ sampleOne.databaseImpl = true) ∧
    ∃ s1, Album.destroy sampleOne 0 = some s1 ∧
      s1.s_albumsByName (albumCacheKey sampleArtist ['X']) = none ∧
      s1.s_albumsByCoverId
        (Album.coverId sampleOne (Album.fresh sampleState sampleArtist ['X'] 5)).1 = none ∧
      liveAlbum s1 0 = none ∧
      ∃ b fresh, (Album.get s1 sampleArtist ['X'] false 5).1 = some b ∧
        b ≠ 0 ∧ s1.heap[b]? = none ∧
        liveAlbum (Album.get s1 sampleArtist ['X'] false 5).2 b = some fresh ∧
        fresh.m_name = ['X'] ∧ fresh.m_artist = sampleArtist ∧
        fresh.m_waitingForId = true :=
  ⟨⟨rfl, rfl, rfl⟩,
    Album.destroy_then_get sampleOne 0 (Album.fresh sampleState sampleArtist ['X'] 5)
      false 5 rfl ⟨rfl, rfl⟩⟩

/-- C5. Let `a` be a live instance holding its own reference and a cover key
`k_old`.  When `infoSystemInfo` is handed a non-null, valid result whose
caller token is `a.uniqueId()` and whose type is album cover art, `a` gets a
cover key `k_new`; afterwards `getByCoverId( k_new )` returns `a`, and if
`k_old` differs from `k_new` then `getByCoverId( k_old )` returns the null
handle, so no longer `a`. -/
theorem Album.infoSystemInfo_reregisters (s : State) (a : Handle)
    (requestData : InfoRequestData) (output : QVariant) (self : Album)
    (hlive : liveAlbum s a = some self)
    (hown : self.m_ownRef = some a)
    (hkey : self.m_coverId ≠ [])
    (hcaller : requestData.caller = (Album.uniqueId s self).1)
    (htype : requestData.type = InfoType.InfoAlbumCoverArt)
    (hnull : output.isNull = false) (hvalid : output.isValid = true) :
    ∃ s1 self1, Album.infoSystemInfo s a requestData output = some s1 ∧
      liveAlbum s1 a = some self1 ∧
      (Album.getByCoverId s1 self1.m_coverId).1 = some a ∧
      (self.m_coverId ≠ self1.m_coverId →
        (Album.getByCoverId s1 self.m_coverId).1 = none ∧
        (Album.getByCoverId s1 self.m_coverId).1 ≠ some a) := by
  have hacc : Album.accepts s self requestData = true := by
    simp [Album.accepts, hcaller, htype]
  obtain ⟨s1, y, kold, k, h0, h1, h2, -, -, h3, -, -, -, h4, h5, -⟩ :=
    Album.infoSystemInfo_valid s a requestData output self hlive hacc hnull hvalid
  have hlt := liveAlbum_lt hlive
  have hal : y.alive = true := by
    unfold Album.SameCore at h2
    rw [h2.2.2.2.2.2.2]
    exact (liveAlbum_some hlive).2
  refine ⟨s1, y, h0, ?_, ?_, ?_⟩
  · simp [liveAlbum, h1, List.getElem?_set_self hlt, hal]
  · rw [(Album.getByCoverId_spec s1 y.m_coverId).1, h5, h3]
    simp [hown]
  · intro hne
    have hnone : (Album.getByCoverId s1 self.m_coverId).1 = none := by
      rw [(Album.getByCoverId_spec s1 self.m_coverId).1, h5,
        QHash.insert_other _ _ _ _ (by rw [← h3]; exact hne), h4 hkey]
      simp
    exact ⟨hnone, by rw [hnone]; simp⟩

theorem Album.infoSystemInfo_reregisters_witness :
    (liveAlbum sampleOne 0 = some (Album.fresh sampleState sampleArtist ['X'] 5) ∧
      (Album.fresh sampleState sampleArtist ['X'] 5).m_ownRef = some 0 ∧
      (Album.fresh sampleState sampleArtist ['X'] 5).m_coverId ≠ [] ∧
      sampleRequest.caller
        = (Album.uniqueId sampleOne (Album.fresh sampleState sampleArtist ['X'] 5)).1 ∧
      sampleRequest.type = InfoType.InfoAlbumCoverArt ∧
      sampleResult.isNull = false ∧ sampleResult.isValid = true) ∧
    ∃ s1 self1, Album.infoSystemInfo sampleOne 0 sampleRequest sampleResult = some s1 ∧
      liveAlbum s1 0 = some self1 ∧
      (Album.getByCoverId s1 self1.m_coverId).1 = some 0 ∧
      ((Album.fresh sampleState sampleArtist ['X'] 5).m_coverId ≠ self1.m_coverId →
        (Album.getByCoverId s1 (Album.fresh sampleState sampleArtist ['X'] 5).m_coverId).1
          = none ∧
        (Album.getByCoverId s1 (Album.fresh sampleState sampleArtist ['X'] 5).m_coverId).1
          ≠ some 0) :=
  ⟨⟨rfl, rfl, by decide, rfl, rfl, rfl, rfl⟩,
    Album.infoSystemInfo_reregisters sampleOne 0 sampleRequest sampleResult
      (Album.fresh sampleState sampleArtist ['X'] 5) rfl rfl (by decide) rfl rfl rfl rfl⟩

/-! ## Facts that hold along every run -/

theorem Album.evolves_refl (x : Album) : Album.Evolves x x :=
  ⟨rfl, fun h => h, rfl, rfl, fun h => h⟩

theorem Album.evolves_trans {x y z : Album} (h1 : Album.Evolves x y) (h2 : Album.Evolves y z) :
    Album.Evolves x z :=
  ⟨h2.1.trans h1.1, fun h => h2.2.1 (h1.2.1 h), h2.2.2.1.trans h1.2.2.1,
    h2.2.2.2.1.trans h1.2.2.2.1, fun h => h1.2.2.2.2 (h2.2.2.2.2 h)⟩

theorem Album.sameCore_evolves {x y : Album} (h : Album.SameCore x y) : Album.Evolves x y := by
  obtain ⟨h1, h2, h3, h4, h5, -, h7⟩ := h
  refine ⟨by simp [Album.determinedId, h1, h2, h5], fun h => by rw [h1]; exact h, h3, h4,
    fun h => by rw [← h7]; exact h⟩

theorem Album.sameId_evolves {x y : Album} (h : Album.SameId x y) (hal : y.alive = false) :
    Album.Evolves x y := by
  obtain ⟨h1, h2, h3, h4, h5⟩ := h
  refine ⟨by simp [Album.determinedId, h1, h2, h5], fun h => by rw [h1]; exact h, h3, h4,
    fun h => by rw [hal] at h; cases h⟩

/-- Lookup in a heap where cell `a` was overwritten. -/
theorem heap_set_cases {l : List Album} {a i : Nat} {x self y : Album}
    (hself : l[a]? = some self) (hx : l[i]? = some x) :
    (i = a ∧ x = self ∧ (l.set a y)[i]? = some y) ∨ (i ≠ a ∧ (l.set a y)[i]? = some x) := by
  by_cases h : i = a
  · subst h
    left
    rw [hself] at hx
    cases hx
    exact ⟨rfl, rfl, by rw [List.getElem?_set_self (List.getElem?_eq_some.1 hself).1]⟩
  · right
    exact ⟨h, by rw [List.getElem?_set_ne (Ne.symm h)]; exact hx⟩

theorem heap_append_old {l : List Album} {i : Nat} {x new : Album} (hx : l[i]? = some x) :
    (l ++ [new])[i]? = some x := by
  rw [List.getElem?_append_left (List.getElem?_eq_some.1 hx).1]
  exact hx

/-- One call keeps every constructed instance in place and lets it evolve only
as `Album.Evolves` allows. -/
theorem step_evolves (s : State) (op : Op) (i : Handle) (x : Album)
    (hx : s.heap[i]? = some x) :
    ∃ y, (step s op).heap[i]? = some y ∧ Album.Evolves x y := by
  have hset : ∀ (a : Handle) (self y : Album), liveAlbum s a = some self →
      (step s op).heap = s.heap.set a y → Album.Evolves self y →
      ∃ y, (step s op).heap[i]? = some y ∧ Album.Evolves x y := by
    intro a self y hl hh he
    rcases heap_set_cases (y := y) (liveAlbum_some hl).1 hx with ⟨-, h2, h3⟩ | ⟨-, h3⟩
    · exact ⟨y, by rw [hh]; exact h3, by rw [h2]; exact he⟩
    · exact ⟨x, by rw [hh]; exact h3, Album.evolves_refl x⟩
  rcases step_cases s op with h | h | h | h | h | h | h
  · exact ⟨x, by rw [h.1]; exact hx, Album.evolves_refl x⟩
  · obtain ⟨artist, name, autoCreate, idResult, -, -, hh, -⟩ := h
    exact ⟨x, by rw [hh]; exact heap_append_old hx, Album.evolves_refl x⟩
  · obtain ⟨id, name, artist, -, -, hh, -⟩ := h
    exact ⟨x, by rw [hh]; exact heap_append_old hx, Album.evolves_refl x⟩
  · obtain ⟨a, self, n, -, hl, hw, hf, hh, -⟩ := h
    refine hset a self _ hl hh ?_
    refine ⟨by simp [Album.determinedId, hw, hf], fun _ => rfl, rfl, rfl, fun h => h⟩
  · obtain ⟨a, self, y, kold, -, hl, hh, hid, hal, -⟩ := h
    exact hset a self y hl hh (Album.sameId_evolves hid hal)
  · obtain ⟨a, self, y, hl, hh, hc, -⟩ := h
    exact hset a self y hl hh (Album.sameCore_evolves hc)
  · obtain ⟨a, rd, out, self, y, kold, k, -, hl, hh, hc, -⟩ := h
    exact hset a self y hl hh (Album.sameCore_evolves hc)

theorem run_evolves (ops : List Op) (s : State) (i : Handle) (x : Album)
    (hx : s.heap[i]? = some x) :
    ∃ y, (run s ops).heap[i]? = some y ∧ Album.Evolves x y := by
  induction ops generalizing s x with
  | nil => exact ⟨x, hx, Album.evolves_refl x⟩
  | cons op ops ih =>
    obtain ⟨y, hy, he⟩ := step_evolves s op i x hx
    obtain ⟨z, hz, he2⟩ := ih (step s op) y hy
    exact ⟨z, hz, Album.evolves_trans he he2⟩

/-- What `id()` returns on a live instance. -/
theorem Album.id_returns (s : State) (a : Handle) (x : Album)
    (hlive : liveAlbum s a = some x) :
    (∀ v t, Album.id s a = some (v, t) → Album.determinedId x = some v) ∧
    (∀ v, Album.determinedId x = some v →
      ∃ t z, Album.id s a = some (v, t) ∧ t.heap[a]? = some z ∧
        z.m_waitingForId = false ∧ z.m_id = v) := by
  have hlt := liveAlbum_lt hlive
  cases hw : x.m_waitingForId with
  | false =>
    rw [Album.id_resolved s a x hlive hw]
    simp only [Album.determinedId, hw]
    refine ⟨?_, ?_⟩
    · intro v t h
      simp at h
      simp [h.1]
    · intro v h
      simp at h
      exact ⟨s, x, by simp [h], (liveAlbum_some hlive).1, hw, h⟩
  | true =>
    cases hf : x.m_idFuture with
    | none =>
      rw [Album.id_unset s a x hlive hw hf]
      simp [Album.determinedId, hw, hf]
    | some n =>
      obtain ⟨s1, h0, h1, -⟩ := Album.id_pending s a x n hlive hw hf
      rw [h0]
      simp only [Album.determinedId, hw, hf]
      refine ⟨?_, ?_⟩
      · intro v t h
        simp at h
        simp [h.1]
      · intro v h
        simp at h
        subst h
        exact ⟨s1, _, rfl, by rw [h1, List.getElem?_set_self hlt], rfl, rfl⟩

/-! ## The pending-id state machine -/

/-- C7. An instance whose pending flag `m_waitingForId` is false keeps it
false in every later state, whatever calls follow.  Every `id()` call on the
instance, in whatever later state, returns one and the same value, fixed from
the start: the result of its future for an instance still pending (so for one
constructed by the name-based factory), the stored id otherwise (so the
constructor-supplied id for one constructed by the id-based factory).  On a
live instance with that value available the call does return, and leaves the
flag cleared and the value cached. -/
theorem Album.id_fixed (s : State) (a : Handle) (x : Album)
    (hx : s.heap[a]? = some x) (ops : List Op) :
    ∃ y, (run s ops).heap[a]? = some y ∧
      (x.m_waitingForId = false → y.m_waitingForId = false) ∧
      (∀ v t, Album.id (run s ops) a = some (v, t) → Album.determinedId x = some v) ∧
      (y.alive = true → ∀ v, Album.determinedId x = some v →
        ∃ t z, Album.id (run s ops) a = some (v, t) ∧ t.heap[a]? = some z ∧
          z.m_waitingForId = false ∧ z.m_id = v) ∧
      (∀ (s0 : State) (artist : Artist) (name : QString) (idResult : Nat),
        Album.determinedId (Album.fresh s0 artist name idResult) = some idResult) ∧
      (∀ (s0 : State) (id : Nat) (name : QString) (artist : Artist),
        Album.determinedId (Album.freshWithId s0 id name artist) = some id) := by
  obtain ⟨y, hy, he⟩ := run_evolves ops s a x hx
  refine ⟨y, hy, he.2.1, ?_, ?_, fun _ _ _ _ => rfl, fun _ _ _ _ => rfl⟩
  · intro v t hid
    cases hl : liveAlbum (run s ops) a with
    | none =>
      rw [Album.id_dead _ a hl] at hid
      cases hid
    | some z =>
      have hz : z = y := by
        have := (liveAlbum_some hl).1
        rw [hy] at this
        cases this
        rfl
      subst hz
      rw [← he.1]
      exact (Album.id_returns _ a z hl).1 v t hid
  · intro hal v hv
    have hl : liveAlbum (run s ops) a = some y := liveAlbum_of hy hal
    exact (Album.id_returns _ a y hl).2 v (by rw [he.1]; exact hv)

theorem Album.id_fixed_witness :
    sampleOne.heap[0]? = some (Album.fresh sampleState sampleArtist ['X'] 5) ∧
    ∃ y, (run sampleOne [Op.id 0, Op.getWithId 5 ['X'] sampleArtist, Op.id 0]).heap[0]?
        = some y ∧
      ((Album.fresh sampleState sampleArtist ['X'] 5).m_waitingForId = false →
        y.m_waitingForId = false) ∧
      (∀ v t,
        Album.id (run sampleOne [Op.id 0, Op.getWithId 5 ['X'] sampleArtist, Op.id 0]) 0
          = some (v, t) →
        Album.determinedId (Album.fresh sampleState sampleArtist ['X'] 5) = some v) ∧
      (y.alive = true → ∀ v,
        Album.determinedId (Album.fresh sampleState sampleArtist ['X'] 5) = some v →
        ∃ t z,
          Album.id (run sampleOne [Op.id 0, Op.getWithId 5 ['X'] sampleArtist, Op.id 0]) 0
            = some (v, t) ∧
          t.heap[0]? = some z ∧ z.m_waitingForId = false ∧ z.m_id = v) ∧
      (∀ (s0 : State) (artist : Artist) (name : QString) (idResult : Nat),
        Album.determinedId (Album.fresh s0 artist name idResult) = some idResult) ∧
      (∀ (s0 : State) (id : Nat) (name : QString) (artist : Artist),
        Album.determinedId (Album.freshWithId s0 id name artist) = some id) :=
  ⟨rfl, Album.id_fixed sampleOne 0 (Album.fresh sampleState sampleArtist ['X'] 5) rfl
    [Op.id 0, Op.getWithId 5 ['X'] sampleArtist, Op.id 0]⟩

/-- The registration `s_albumsById[ n ] = a` of a resolved instance `a`
survives every call except an `id()` that resolves another pending instance
to the same `n`. -/
theorem step_keeps_id_entry (s : State) (op : Op) (n : Nat) (a : Handle)
    (hreg : s.s_albumsById n = some (some a))
    (hres : ∃ x, s.heap[a]? = some x ∧ x.m_waitingForId = false)
    (hop : ∀ b, op = Op.id b → (decide (b ≠ a) && resolvesTo s b n) = false) :
    (step s op).s_albumsById n = some (some a) ∧
    ∃ x, (step s op).heap[a]? = some x ∧ x.m_waitingForId = false := by
  obtain ⟨x, hx, hxw⟩ := hres
  obtain ⟨y, hy, he⟩ := step_evolves s op a x hx
  refine ⟨?_, y, hy, he.2.1 hxw⟩
  rcases step_cases s op with h | h | h | h | h | h | h
  · rw [h.2.2.1]; exact hreg
  · obtain ⟨_, _, _, _, -, -, -, -, hi, -⟩ := h
    rw [hi]; exact hreg
  · obtain ⟨id, name, artist, -, hk, -, -, hi, -⟩ := h
    rw [hi]
    split
    · rw [QHash.insert_other _ _ _ _ (by rintro rfl; rw [hk] at hreg; cases hreg)]
      exact hreg
    · exact hreg
  · obtain ⟨b, self, m, hopb, hl, hw, hf, -, -, hi, -⟩ := h
    rw [hi]
    have hba : b ≠ a := by
      rintro rfl
      have := (liveAlbum_some hl).1
      rw [hx] at this
      cases this
      rw [hw] at hxw
      cases hxw
    have hmn : m ≠ n := by
      rintro rfl
      have := hop b hopb
      simp [resolvesTo, hl, hw, hf, hba] at this
    split
    · rw [QHash.insert_other _ _ _ _ (Ne.symm hmn)]
      exact hreg
    · exact hreg
  · obtain ⟨_, _, _, _, -, -, -, -, -, -, -, -, hi, -⟩ := h
    rw [hi]; exact hreg
  · obtain ⟨_, _, _, -, -, -, -, -, hi, -⟩ := h
    rw [hi]; exact hreg
  · obtain ⟨_, _, _, _, _, _, _, -, -, -, -, -, -, -, -, -, hi, -⟩ := h
    rw [hi]; exact hreg

theorem run_keeps_id_entry (ops : List Op) (s : State) (n : Nat) (a : Handle)
    (hreg : s.s_albumsById n = some (some a))
    (hres : ∃ x, s.heap[a]? = some x ∧ x.m_waitingForId = false)
    (hops : otherResolves n a s ops = false) :
    (run s ops).s_albumsById n = some (some a) := by
  induction ops generalizing s with
  | nil => exact hreg
  | cons op ops ih =>
    simp only [otherResolves, Bool.or_eq_false_iff] at hops
    obtain ⟨h1, h2⟩ := step_keeps_id_entry s op n a hreg hres (by
      intro b hb
      subst hb
      exact hops.1)
    exact ih (step s op) h1 h2 hops.2

/-- C3, counterexample.  Instance 0 comes from the name-based lookup of
artist `A`, album `X`, and its `id()` returns 5.  A second pending instance
(album `x`) whose future also yields 5 then calls `id()`.  After that the
id-based lookup of 5 returns instance 1, not instance 0. -/
theorem Album.id_entry_overwritten :
    (Album.get sampleState sampleArtist ['X'] true 5).1 = some 0 ∧
    (Album.id sampleOne 0).map Prod.fst = some 5 ∧
    (Album.getWithId (run sampleOne [Op.id 0]) 5 ['X'] sampleArtist).1 = some 0 ∧
    (Album.getWithId
      (run sampleOne [Op.id 0, Op.get sampleArtist ['x'] true 5, Op.id 1])
      5 ['X'] sampleArtist).1 = some 1 := by
  decide

/-- C3, amended.  Let `a` be a live pending instance holding its own
reference (as every instance handed out by the name-based factory does) whose
future yields `n > 0`.  Then `a.id()` returns `n`, and after any further calls
among which no `id()` resolves another pending instance to the same `n`, the
id-based lookup `Album::get( n, anyName, anyArtist )` returns `a` and
constructs nothing. -/
theorem Album.getWithId_after_id (s : State) (a : Handle) (self : Album) (n : Nat)
    (hlive : liveAlbum s a = some self)
    (hown : self.m_ownRef = some a)
    (hw : self.m_waitingForId = true)
    (hf : self.m_idFuture = some n)
    (hn : 0 < n) :
    ∃ s1, Album.id s a = some (n, s1) ∧
      ∀ ops, otherResolves n a s1 ops = false →
        ∀ (name : QString) (artist : Artist),
          (Album.getWithId (run s1 ops) n name artist).1 = some a ∧
          (Album.getWithId (run s1 ops) n name artist).2.heap = (run s1 ops).heap ∧
          (Album.getWithId (run s1 ops) n name artist).2.s_albumsByName
            = (run s1 ops).s_albumsByName ∧
          (Album.getWithId (run s1 ops) n name artist).2.s_albumsById
            = (run s1 ops).s_albumsById ∧
          (Album.getWithId (run s1 ops) n name artist).2.s_albumsByCoverId
            = (run s1 ops).s_albumsByCoverId := by
  obtain ⟨s1, h0, h1, -, h3, -⟩ := Album.id_pending s a self n hlive hw hf
  have hlt := liveAlbum_lt hlive
  refine ⟨s1, h0, ?_⟩
  intro ops hops name artist
  have hreg : s1.s_albumsById n = some (some a) := by
    rw [h3, if_pos hn, hown]
    simp
  have hres : ∃ x, s1.heap[a]? = some x ∧ x.m_waitingForId = false :=
    ⟨_, by rw [h1, List.getElem?_set_self hlt], rfl⟩
  have hfin := run_keeps_id_entry ops s1 n a hreg hres hops
  rw [Album.getWithId_hit (run s1 ops) n name artist (some a) hfin]
  simp

theorem Album.getWithId_after_id_witness :
    (liveAlbum sampleOne 0 = some (Album.fresh sampleState sampleArtist ['X'] 5) ∧
      (Album.fresh sampleState sampleArtist ['X'] 5).m_ownRef = some 0 ∧
      (Album.fresh sampleState sampleArtist ['X'] 5).m_waitingForId = true ∧
      (Album.fresh sampleState sampleArtist ['X'] 5).m_idFuture = some 5 ∧
      0 < 5) ∧
    ∃ s1, Album.id sampleOne 0 = some (5, s1) ∧
      ∀ ops, otherResolves 5 0 s1 ops = false →
        ∀ (name : QString) (artist : Artist),
          (Album.getWithId (run s1 ops) 5 name artist).1 = some 0 ∧
          (Album.getWithId (run s1 ops) 5 name artist).2.heap = (run s1 ops).heap ∧
          (Album.getWithId (run s1 ops) 5 name artist).2.s_albumsByName
            = (run s1 ops).s_albumsByName ∧
          (Album.getWithId (run s1 ops) 5 name artist).2.s_albumsById
            = (run s1 ops).s_albumsById ∧
          (Album.getWithId (run s1 ops) 5 name artist).2.s_albumsByCoverId
            = (run s1 ops).s_albumsByCoverId :=
  ⟨⟨rfl, rfl, rfl, rfl, by decide⟩,
    Album.getWithId_after_id sampleOne 0 (Album.fresh sampleState sampleArtist ['X'] 5) 5
      rfl rfl rfl rfl (by decide)⟩

/-! ## Cover fetches -/

theorem liveAlbum_set_self {s t : State} {a : Handle} {self y : Album}
    (hlive : liveAlbum s a = some self) (hh : t.heap = s.heap.set a y)
    (hal : y.alive = true) : liveAlbum t a = some y := by
  apply liveAlbum_of _ hal
  rw [hh, List.getElem?_set_self (liveAlbum_lt hlive)]

/-- The flags after a delivery to `infoSystemInfo`. -/
theorem Album.infoSystemInfo_flags (s : State) (a : Handle) (rd : InfoRequestData)
    (out : QVariant) (self : Album) (hlive : liveAlbum s a = some self) :
    ∃ s1 y, Album.infoSystemInfo s a rd out = some s1 ∧ liveAlbum s1 a = some y ∧
      y.m_coverLoading = self.m_coverLoading ∧
      (self.m_coverLoaded = true → y.m_coverLoaded = true) ∧
      (Album.accepts s self rd = false → y.m_coverLoaded = self.m_coverLoaded) ∧
      s1.getInfoLog = s.getInfoLog := by
  obtain ⟨uc, ul, ug, -, -, -, -⟩ := Album.uniqueId_fields s self
  have hal := (liveAlbum_some hlive).2
  have hual : (Album.uniqueId s self).2.2.alive = true := by
    rw [uc.2.2.2.2.2.2]; exact hal
  have hskip : Album.infoSystemInfo s a rd out
        = some (store (Album.uniqueId s self).2.1 a (Album.uniqueId s self).2.2) →
      ∃ s1 y, Album.infoSystemInfo s a rd out = some s1 ∧ liveAlbum s1 a = some y ∧
        y.m_coverLoading = self.m_coverLoading ∧
        (self.m_coverLoaded = true → y.m_coverLoaded = true) ∧
        (Album.accepts s self rd = false → y.m_coverLoaded = self.m_coverLoaded) ∧
        s1.getInfoLog = s.getInfoLog := by
    intro heq
    refine ⟨_, (Album.uniqueId s self).2.2, heq,
      liveAlbum_set_self hlive (by simp) hual, ug, (fun h => by rw [ul]; exact h),
      fun _ => ul, by simp⟩
  by_cases hacc : Album.accepts s self rd = true
  · cases hn : out.isNull with
    | true =>
      refine ⟨_, { (Album.uniqueId s self).2.2 with m_coverLoaded := true },
        Album.infoSystemInfo_null s a rd out self hlive hacc hn,
        liveAlbum_set_self hlive (by simp) hual, ug, fun _ => rfl,
        (fun h => by rw [hacc] at h; cases h), by simp⟩
    | false =>
      cases hv : out.isValid with
      | true =>
        obtain ⟨s1, y, kold, k, h0, h1, h2, h3, h4, -, -, -, -, -, -, -, -, -, -, -, -, -, -,
          h5⟩ := Album.infoSystemInfo_valid s a rd out self hlive hacc hn hv
        refine ⟨s1, y, h0, liveAlbum_set_self hlive h1 (by rw [h2.2.2.2.2.2.2]; exact hal),
          h4, fun _ => h3, (fun h => by rw [hacc] at h; cases h), h5⟩
      | false => exact hskip (Album.infoSystemInfo_skip s a rd out self hlive (Or.inr ⟨hn, hv⟩))
  · exact hskip (Album.infoSystemInfo_skip s a rd out self hlive
      (Or.inl (by simpa using hacc)))

theorem fetchCount_append (s t : State) (a : Handle) (rd : InfoRequestData) (c : Bool)
    (h : t.getInfoLog = s.getInfoLog ++ (if c = true then [(a, rd)] else [])) :
    fetchCount t a = fetchCount s a + (if c = true then 1 else 0) := by
  unfold fetchCount
  rw [h]
  cases c <;> simp

/-- One protocol-conforming call keeps the instance idle or at one fetch; a
forced `cover` takes it to one fetch, where it stays. -/
theorem cover_step (s : State) (a : Handle) (op : Op)
    (hok : coverStepOk a s op = true) :
    (CoverIdle s a → (CoverIdle (step s op) a ∧ isForcedCover op = false) ∨
      CoverOnce (step s op) a) ∧
    (CoverOnce s a → CoverOnce (step s op) a) := by
  cases op with
  | get _ _ _ _ => simp [coverStepOk] at hok
  | getWithId _ _ _ => simp [coverStepOk] at hok
  | getByCoverId _ => simp [coverStepOk] at hok
  | id _ => simp [coverStepOk] at hok
  | destroy _ => simp [coverStepOk] at hok
  | cover b size forceLoad =>
    simp only [coverStepOk, decide_eq_true_eq] at hok
    subst hok
    have key : ∀ x, liveAlbum s b = some x →
        ∃ y, liveAlbum (step s (Op.cover b size forceLoad)) b = some y ∧
          y.m_coverLoaded = x.m_coverLoaded ∧
          y.m_coverLoading = (x.m_coverLoading || (!x.m_coverLoaded && forceLoad)) ∧
          fetchCount (step s (Op.cover b size forceLoad)) b = fetchCount s b +
            (if (!x.m_coverLoaded && !x.m_coverLoading && forceLoad) = true then 1 else 0) := by
      intro x hl
      obtain ⟨p, s1, y, h0, h1, h2, h3, -, h4, ⟨rd, h5⟩, -⟩ :=
        Album.cover_spec s b size forceLoad x hl
      refine ⟨y, ?_, h3, h4, ?_⟩
      · simp only [step, h0]
        exact liveAlbum_set_self hl h1 (by rw [h2.2.2.2.2.2.2]; exact (liveAlbum_some hl).2)
      · simp only [step, h0]
        exact fetchCount_append s s1 b rd _ h5
    refine ⟨?_, ?_⟩
    · rintro ⟨x, hl, hc, hld, hlg⟩
      obtain ⟨y, hy, h1, h2, h3⟩ := key x hl
      cases forceLoad with
      | false =>
        left
        refine ⟨⟨y, hy, ?_, by rw [h1, hld], by rw [h2, hlg, hld]; rfl⟩, rfl⟩
        rw [h3, hc]
        simp
      | true =>
        right
        refine ⟨y, hy, ?_, Or.inr (by rw [h2, hld]; simp)⟩
        rw [h3, hc, hld, hlg]
        simp
    · rintro ⟨x, hl, hc, hor⟩
      obtain ⟨y, hy, h1, h2, h3⟩ := key x hl
      refine ⟨y, hy, ?_, ?_⟩
      · rw [h3, hc]
        rcases hor with h | h <;> simp [h]
      · rcases hor with h | h
        · exact Or.inl (by rw [h1]; exact h)
        · exact Or.inr (by rw [h2, h]; simp)
  | infoSystemInfo b rd out =>
    simp only [coverStepOk, Bool.and_eq_true, decide_eq_true_eq] at hok
    obtain ⟨hb, hproto⟩ := hok
    subst hb
    have key : ∀ x, liveAlbum s b = some x →
        ∃ y, liveAlbum (step s (Op.infoSystemInfo b rd out)) b = some y ∧
          y.m_coverLoading = x.m_coverLoading ∧
          (x.m_coverLoaded = true → y.m_coverLoaded = true) ∧
          (x.m_coverLoading = false → y.m_coverLoaded = x.m_coverLoaded) ∧
          fetchCount (step s (Op.infoSystemInfo b rd out)) b = fetchCount s b := by
      intro x hl
      obtain ⟨s1, y, h0, h1, h2, h3, h4, h5⟩ := Album.infoSystemInfo_flags s b rd out x hl
      refine ⟨y, by simp only [step, h0]; exact h1, h2, h3, ?_, ?_⟩
      · intro hg
        apply h4
        rw [hl] at hproto
        simp only [hg, Bool.or_false, Bool.not_eq_true'] at hproto
        exact hproto
      · simp only [step, h0, Option.getD_some]
        unfold fetchCount
        rw [h5]
    refine ⟨?_, ?_⟩
    · rintro ⟨x, hl, hc, hld, hlg⟩
      obtain ⟨y, hy, h1, -, h3, h4⟩ := key x hl
      exact Or.inl ⟨⟨y, hy, by rw [h4, hc], by rw [h3 hlg, hld], by rw [h1, hlg]⟩, rfl⟩
    · rintro ⟨x, hl, hc, hor⟩
      obtain ⟨y, hy, h1, h2, -, h4⟩ := key x hl
      refine ⟨y, hy, by rw [h4, hc], ?_⟩
      rcases hor with h | h
      · exact Or.inl (h2 h)
      · exact Or.inr (by rw [h1]; exact h)
  | infoSystemFinished b target =>
    simp only [coverStepOk, Bool.and_eq_true, decide_eq_true_eq] at hok
    obtain ⟨hb, hproto⟩ := hok
    subst hb
    have key : ∀ x, liveAlbum s b = some x →
        ∃ y, liveAlbum (step s (Op.infoSystemFinished b target)) b = some y ∧
          y.m_coverLoaded = x.m_coverLoaded ∧
          (x.m_coverLoading = false → y.m_coverLoading = false) ∧
          (x.m_coverLoaded = false → y.m_coverLoading = x.m_coverLoading) ∧
          fetchCount (step s (Op.infoSystemFinished b target)) b = fetchCount s b := by
      intro x hl
      obtain ⟨s1, y, h0, h1, h2, h3, -, h4, -, -, -, -, -, -, -, -, -, -, -, h5⟩ :=
        Album.infoSystemFinished_spec s b target x hl
      refine ⟨y, ?_, h3, ?_, ?_, ?_⟩
      · simp only [step, h0]
        exact liveAlbum_set_self hl h1 (by rw [h2.2.2.2.2.2.2]; exact (liveAlbum_some hl).2)
      · intro hg
        rw [h4, hg]
        rfl
      · intro hld
        rw [hl] at hproto
        simp only [hld, Bool.or_false, Bool.not_eq_true', decide_eq_false_iff_not] at hproto
        rw [h4]
        simp [hproto]
      · simp only [step, h0, Option.getD_some]
        unfold fetchCount
        rw [h5]
    refine ⟨?_, ?_⟩
    · rintro ⟨x, hl, hc, hld, hlg⟩
      obtain ⟨y, hy, h1, h2, -, h4⟩ := key x hl
      exact Or.inl ⟨⟨y, hy, by rw [h4, hc], by rw [h1, hld], h2 hlg⟩, rfl⟩
    · rintro ⟨x, hl, hc, hor⟩
      obtain ⟨y, hy, h1, -, h3, h4⟩ := key x hl
      refine ⟨y, hy, by rw [h4, hc], ?_⟩
      cases hld : x.m_coverLoaded with
      | true => exact Or.inl (by rw [h1]; exact hld)
      | false =>
        rcases hor with h | h
        · rw [hld] at h; cases h
        · exact Or.inr (by rw [h3 hld]; exact h)

theorem cover_run (ops : List Op) (s : State) (a : Handle)
    (hok : coverProtocol a s ops = true) :
    (CoverIdle s a → (CoverIdle (run s ops) a ∧ hasForcedCover ops = false) ∨
      CoverOnce (run s ops) a) ∧
    (CoverOnce s a → CoverOnce (run s ops) a) := by
  induction ops generalizing s with
  | nil => exact ⟨fun h => Or.inl ⟨h, rfl⟩, fun h => h⟩
  | cons op ops ih =>
    simp only [coverProtocol, Bool.and_eq_true] at hok
    obtain ⟨h1, h2⟩ := cover_step s a op hok.1
    obtain ⟨i1, i2⟩ := ih (step s op) hok.2
    refine ⟨?_, fun h => i2 (h2 h)⟩
    intro hidle
    rcases h1 hidle with ⟨hi, hf⟩ | ho
    · rcases i1 hi with ⟨hi2, hf2⟩ | ho2
      · exact Or.inl ⟨hi2, by simp [hasForcedCover, hf] at hf2 ⊢; exact hf2⟩
      · exact Or.inr ho2
    · exact Or.inr (i2 ho)

/-- C6, counterexample.  On the freshly constructed instance 0 the run
`cover( size, true )`, `infoSystemFinished` for its token (no result came in
between), `cover( size, true )` consists of `cover` calls and deliveries on
the instance, contains a forced `cover`, and issues two `getInfo` requests. -/
theorem Album.cover_fetched_twice :
    hasForcedCover
        [Op.cover 0 sampleSize true, Op.infoSystemFinished 0 ['u', 'u'],
          Op.cover 0 sampleSize true] = true ∧
    fetchCount sampleOne 0 = 0 ∧
    fetchCount (run sampleOne
      [Op.cover 0 sampleSize true, Op.infoSystemFinished 0 ['u', 'u'],
        Op.cover 0 sampleSize true]) 0 = 2 := by
  decide

/-- A result for the token of instance 0 handed to the slot before any fetch
(so before `cover` has connected it) marks the cover loaded, and a forced
`cover` after it issues no request at all. -/
theorem Album.early_result_no_fetch :
    fetchCount (run sampleOne
      [Op.infoSystemInfo 0 sampleRequest sampleNullResult,
        Op.cover 0 sampleSize true]) 0 = 0 := by
  decide

/-- C6, amended.  Take a live instance that has issued no fetch and whose
cover is neither loaded nor loading.  For every sequence of `cover` calls and
`infoSystemInfo` / `infoSystemFinished` deliveries on it that contains a call
`cover( size, true )` and in which the deliveries follow the protocol (a
result the guard accepts only while the cover is loading, which is while
`cover` has the slot connected; `finished` for the own token only once the
cover is marked loaded), exactly one `getInfo` request is issued.  And `cover( size, false )`
on that instance returns the null pixmap and changes nothing, so issues no
fetch. -/
theorem Album.cover_fetch_once (s : State) (a : Handle) (self : Album)
    (hlive : liveAlbum s a = some self)
    (hloaded : self.m_coverLoaded = false) (hloading : self.m_coverLoading = false)
    (hnone : fetchCount s a = 0) :
    (∀ ops, coverProtocol a s ops = true → hasForcedCover ops = true →
      fetchCount (run s ops) a = 1) ∧
    (∀ size, Album.cover s a size false = some (QPixmap.null, s)) := by
  refine ⟨?_, fun size => Album.cover_idle s a size self hlive hloaded hloading⟩
  intro ops hok hforced
  rcases (cover_run ops s a hok).1 ⟨self, hlive, hnone, hloaded, hloading⟩ with ⟨-, hf⟩ | ho
  · rw [hforced] at hf
    cases hf
  · obtain ⟨x, -, hc, -⟩ := ho
    exact hc

theorem Album.cover_fetch_once_witness :
    (liveAlbum sampleOne 0 = some (Album.fresh sampleState sampleArtist ['X'] 5) ∧
      (Album.fresh sampleState sampleArtist ['X'] 5).m_coverLoaded = false ∧
      (Album.fresh sampleState sampleArtist ['X'] 5).m_coverLoading = false ∧
      fetchCount sampleOne 0 = 0) ∧
    (∀ ops, coverProtocol 0 sampleOne ops = true → hasForcedCover ops = true →
      fetchCount (run sampleOne ops) 0 = 1) ∧
    (∀ size, Album.cover sampleOne 0 size false = some (QPixmap.null, sampleOne)) :=
  ⟨⟨rfl, rfl, rfl, rfl⟩,
    Album.cover_fetch_once sampleOne 0 (Album.fresh sampleState sampleArtist ['X'] 5)
      rfl rfl rfl rfl⟩

/-- A protocol-conforming sample run with a forced `cover`, repeated calls
while loading, a result, and `finished`: one fetch. -/
theorem Album.single_fetch_sample :
    coverProtocol 0 sampleOne
      [Op.cover 0 sampleSize false, Op.cover 0 sampleSize true, Op.cover 0 sampleSize true,
        Op.infoSystemInfo 0 sampleRequest sampleResult,
        Op.infoSystemFinished 0 ['u', 'u'], Op.cover 0 sampleSize true] = true ∧
    fetchCount (run sampleOne
      [Op.cover 0 sampleSize false, Op.cover 0 sampleSize true, Op.cover 0 sampleSize true,
        Op.infoSystemInfo 0 sampleRequest sampleResult,
        Op.infoSystemFinished 0 ['u', 'u'], Op.cover 0 sampleSize true]) 0 = 1 := by
  decide

/-! ## The identity invariant -/

theorem heap_append_cases {l : List Album} {i : Nat} {x new : Album}
    (hx : (l ++ [new])[i]? = some x) :
    l[i]? = some x ∨ (i = l.length ∧ x = new) := by
  by_cases h : i < l.length
  · left
    rw [List.getElem?_append_left h] at hx
    exact hx
  · right
    have hi : i < (l ++ [new]).length := (List.getElem?_eq_some.1 hx).1
    simp at hi
    have hil : i = l.length := by omega
    subst hil
    simp at hx
    exact ⟨rfl, hx.symm⟩

theorem heap_set_inv {l : List Album} {a i : Nat} {x y : Album}
    (hx : (l.set a y)[i]? = some x) :
    (i = a ∧ x = y) ∨ (i ≠ a ∧ l[i]? = some x) := by
  by_cases h : i = a
  · subst h
    left
    have hi : i < (l.set i y).length := (List.getElem?_eq_some.1 hx).1
    simp at hi
    rw [List.getElem?_set_self hi] at hx
    cases hx
    exact ⟨rfl, rfl⟩
  · right
    rw [List.getElem?_set_ne (Ne.symm h)] at hx
    exact ⟨h, hx⟩

theorem coverInv_same {s t : State} (h : CoverInv s) (hsrc : t.uuidSrc = s.uuidSrc)
    (hcnt : s.uuidCount ≤ t.uuidCount) (hh : t.heap = s.heap) : CoverInv t := by
  refine ⟨?_, ?_⟩
  · intro i x hx
    rw [hh] at hx
    obtain ⟨k, hk, he⟩ := h.1 i x hx
    exact ⟨k, by omega, by rw [hsrc]; exact he⟩
  · intro i j x y hx hy
    rw [hh] at hx hy
    exact h.2 i j x y hx hy

theorem coverInv_append {s t : State} {new : Album} (h : CoverInv s)
    (hinj : Function.Injective s.uuidSrc) (hsrc : t.uuidSrc = s.uuidSrc)
    (hcnt : t.uuidCount = s.uuidCount + 1) (hh : t.heap = s.heap ++ [new])
    (hnew : new.m_coverId = s.uuidSrc s.uuidCount) : CoverInv t := by
  have hfresh : ∀ (i : Handle) (x : Album), s.heap[i]? = some x →
      x.m_coverId ≠ new.m_coverId := by
    intro i x hx he
    obtain ⟨k, hk, hke⟩ := h.1 i x hx
    rw [hke, hnew] at he
    have := hinj he
    omega
  refine ⟨?_, ?_⟩
  · intro i x hx
    rw [hh] at hx
    rcases heap_append_cases hx with hx | ⟨-, rfl⟩
    · obtain ⟨k, hk, he⟩ := h.1 i x hx
      exact ⟨k, by omega, by rw [hsrc]; exact he⟩
    · exact ⟨s.uuidCount, by omega, by rw [hsrc]; exact hnew⟩
  · intro i j x y hx hy he
    rw [hh] at hx hy
    rcases heap_append_cases hx with hx2 | ⟨hi, hxn⟩
    · rcases heap_append_cases hy with hy2 | ⟨hj, hyn⟩
      · exact h.2 i j x y hx2 hy2 he
      · rw [hyn] at he
        exact absurd he (hfresh i x hx2)
    · rcases heap_append_cases hy with hy2 | ⟨hj, hyn⟩
      · rw [hxn] at he
        exact absurd he.symm (hfresh j y hy2)
      · rw [hi, hj]

theorem coverInv_set {s t : State} {a : Handle} {self y : Album} (h : CoverInv s)
    (hinj : Function.Injective s.uuidSrc) (hsrc : t.uuidSrc = s.uuidSrc)
    (hcnt : s.uuidCount ≤ t.uuidCount) (hself : s.heap[a]? = some self)
    (hh : t.heap = s.heap.set a y) (hfrom : Album.CoverIdFrom s t self y) : CoverInv t := by
  have hy : ∃ k, k < t.uuidCount ∧ y.m_coverId = s.uuidSrc k := by
    rcases hfrom with he | ⟨k, -, hk, he⟩
    · obtain ⟨k, hk, hke⟩ := h.1 a self hself
      exact ⟨k, by omega, by rw [he]; exact hke⟩
    · exact ⟨k, hk, he⟩
  have hother : ∀ (i : Handle) (x : Album), i ≠ a → s.heap[i]? = some x →
      x.m_coverId ≠ y.m_coverId := by
    intro i x hia hx he
    rcases hfrom with hey | ⟨k, hk1, -, hey⟩
    · rw [hey] at he
      exact hia (h.2 i a x self hx hself he)
    · obtain ⟨k2, hk2, hke⟩ := h.1 i x hx
      rw [hke, hey] at he
      have := hinj he
      omega
  refine ⟨?_, ?_⟩
  · intro i x hx
    rw [hh] at hx
    rcases heap_set_inv hx with ⟨-, rfl⟩ | ⟨-, hx⟩
    · obtain ⟨k, hk, he⟩ := hy
      exact ⟨k, hk, by rw [hsrc]; exact he⟩
    · obtain ⟨k, hk, he⟩ := h.1 i x hx
      exact ⟨k, by omega, by rw [hsrc]; exact he⟩
  · intro i j x z hx hz he
    rw [hh] at hx hz
    rcases heap_set_inv hx with ⟨hi, hxy⟩ | ⟨hi, hx2⟩
    · rcases heap_set_inv hz with ⟨hj, hzy⟩ | ⟨hj, hz2⟩
      · rw [hi, hj]
      · rw [hxy] at he
        exact absurd he.symm (hother j z hj hz2)
    · rcases heap_set_inv hz with ⟨hj, hzy⟩ | ⟨hj, hz2⟩
      · rw [hzy] at he
        exact absurd he (hother i x hi hx2)
      · exact h.2 i j x z hx2 hz2 he

theorem step_coverInv (s : State) (op : Op) (hinj : Function.Injective s.uuidSrc)
    (h : CoverInv s) : CoverInv (step s op) := by
  obtain ⟨hsrc, hcnt, -, -⟩ := step_env s op
  rcases step_cases s op with c | c | c | c | c | c | c
  · exact coverInv_same h hsrc hcnt c.1
  · obtain ⟨artist, name, autoCreate, idResult, -, -, hh, -, -, -, hc⟩ := c
    exact coverInv_append h hinj hsrc hc hh rfl
  · obtain ⟨id, name, artist, -, -, hh, -, -, -, hc⟩ := c
    exact coverInv_append h hinj hsrc hc hh rfl
  · obtain ⟨a, self, n, -, hl, -, -, hh, -⟩ := c
    exact coverInv_set h hinj hsrc hcnt (liveAlbum_some hl).1 hh (Or.inl rfl)
  · obtain ⟨a, self, y, kold, -, hl, hh, -, -, hfrom, -⟩ := c
    exact coverInv_set h hinj hsrc hcnt (liveAlbum_some hl).1 hh hfrom
  · obtain ⟨a, self, y, hl, hh, -, hc, -⟩ := c
    exact coverInv_set h hinj hsrc hcnt (liveAlbum_some hl).1 hh (Or.inl hc)
  · obtain ⟨a, rd, out, self, y, kold, k, -, hl, hh, -, hc, hk1, hk2, -⟩ := c
    exact coverInv_set h hinj hsrc hcnt (liveAlbum_some hl).1 hh (Or.inr ⟨k, hk1, hk2, hc⟩)

theorem run_uuidSrc (ops : List Op) (s : State) : (run s ops).uuidSrc = s.uuidSrc := by
  induction ops generalizing s with
  | nil => rfl
  | cons op ops ih =>
    simp only [run]
    rw [ih (step s op), (step_env s op).1]

theorem run_coverInv (ops : List Op) (s : State) (hinj : Function.Injective s.uuidSrc)
    (h : CoverInv s) : CoverInv (run s ops) := by
  induction ops generalizing s with
  | nil => exact h
  | cons op ops ih =>
    exact ih (step s op) (by rw [(step_env s op).1]; exact hinj) (step_coverInv s op hinj h)

theorem liveAlbum_inv {s : State} {i : Handle} {x : Album} (h : liveAlbum s i = some x) :
    s.heap[i]? = some x ∧ x.alive = true := liveAlbum_some h

theorem step_nameInv (s : State) (op : Op) (hop : isIdGet op = false) (h : NameInv s) :
    NameInv (step s op) := by
  have hset : ∀ (a : Handle) (self y : Album), liveAlbum s a = some self →
      (step s op).heap = s.heap.set a y →
      (step s op).s_albumsByName = s.s_albumsByName →
      y.m_name = self.m_name → y.m_artist = self.m_artist → NameInv (step s op) := by
    intro a self y hl hh hn h1 h2 i x hx
    obtain ⟨hx1, hx2⟩ := liveAlbum_inv hx
    rw [hh] at hx1
    rw [hn]
    rcases heap_set_inv hx1 with ⟨hi, hxy⟩ | ⟨hi, hx3⟩
    · rw [hxy, h1, h2, hi]
      exact h a self hl
    · exact h i x (liveAlbum_of hx3 hx2)
  rcases step_cases s op with c | c | c | c | c | c | c
  · intro i x hx
    obtain ⟨hx1, hx2⟩ := liveAlbum_inv hx
    rw [c.1] at hx1
    rw [c.2.1]
    exact h i x (liveAlbum_of hx1 hx2)
  · obtain ⟨artist, name, autoCreate, idResult, -, hk, hh, hn, -⟩ := c
    intro i x hx
    obtain ⟨hx1, hx2⟩ := liveAlbum_inv hx
    rw [hh] at hx1
    rw [hn]
    rcases heap_append_cases hx1 with hx3 | ⟨hi, hxn⟩
    · have hreg := h i x (liveAlbum_of hx3 hx2)
      rw [QHash.insert_other _ _ _ _ (by intro he; rw [he, hk] at hreg; cases hreg)]
      exact hreg
    · rw [hxn, hi]
      simp [Album.fresh, Album.pending]
  · obtain ⟨id, name, artist, hopq, -⟩ := c
    rw [hopq] at hop
    cases hop
  · obtain ⟨a, self, n, -, hl, -, -, hh, hn, -⟩ := c
    exact hset a self _ hl hh hn rfl rfl
  · obtain ⟨a, self, y, kold, -, hl, hh, hid, hal, -, -, hn, -⟩ := c
    intro i x hx
    obtain ⟨hx1, hx2⟩ := liveAlbum_inv hx
    rw [hh] at hx1
    rw [hn]
    rcases heap_set_inv hx1 with ⟨hi, hxy⟩ | ⟨hi, hx3⟩
    · rw [hxy, hal] at hx2
      cases hx2
    · have hreg := h i x (liveAlbum_of hx3 hx2)
      rw [QHash.remove_other _ _ _ (by
        intro he
        rw [he, h a self hl] at hreg
        simp at hreg
        exact hi hreg.symm)]
      exact hreg
  · obtain ⟨a, self, y, hl, hh, hc, -, hn, -⟩ := c
    exact hset a self y hl hh hn hc.2.2.1 hc.2.2.2.1
  · obtain ⟨a, rd, out, self, y, kold, k, -, hl, hh, hc, -, -, -, -, hn, -⟩ := c
    exact hset a self y hl hh hn hc.2.2.1 hc.2.2.2.1

theorem step_idInv (s : State) (op : Op) (hop : isNameGet op = false) (h : IdInv s) :
    IdInv (step s op) := by
  have hset : ∀ (a : Handle) (self y : Album), liveAlbum s a = some self →
      (step s op).heap = s.heap.set a y →
      (step s op).s_albumsById = s.s_albumsById →
      y.m_waitingForId = self.m_waitingForId → y.m_id = self.m_id →
      IdInv (step s op) := by
    intro a self y hl hh hn h1 h2 i x hx
    rw [hh] at hx
    rw [hn]
    rcases heap_set_inv hx with ⟨hi, hxy⟩ | ⟨hi, hx3⟩
    · rw [hxy, h1, h2, hi]
      exact h a self (liveAlbum_some hl).1
    · exact h i x hx3
  rcases step_cases s op with c | c | c | c | c | c | c
  · intro i x hx
    rw [c.1] at hx
    rw [c.2.2.1]
    exact h i x hx
  · obtain ⟨artist, name, autoCreate, idResult, hopq, -⟩ := c
    rw [hopq] at hop
    cases hop
  · obtain ⟨id, name, artist, -, hk, hh, -, hn, -⟩ := c
    intro i x hx
    rw [hh] at hx
    rw [hn]
    rcases heap_append_cases hx with hx3 | ⟨hi, hxn⟩
    · obtain ⟨hw, hreg⟩ := h i x hx3
      refine ⟨hw, fun hpos => ?_⟩
      have hreg2 := hreg hpos
      split
      · rw [QHash.insert_other _ _ _ _ (by intro he; rw [he, hk] at hreg2; cases hreg2)]
        exact hreg2
      · exact hreg2
    · rw [hxn, hi]
      refine ⟨rfl, fun hpos => ?_⟩
      have hpos2 : id > 0 := hpos
      simp [Album.freshWithId, Album.withId, hpos2]
  · obtain ⟨a, self, n, -, hl, hw, -⟩ := c
    have := (h a self (liveAlbum_some hl).1).1
    rw [hw] at this
    cases this
  · obtain ⟨a, self, y, kold, -, hl, hh, hid, -, -, -, -, hn, -⟩ := c
    exact hset a self y hl hh hn hid.1 hid.2.1
  · obtain ⟨a, self, y, hl, hh, hc, -, -, hn, -⟩ := c
    exact hset a self y hl hh hn hc.1 hc.2.1
  · obtain ⟨a, rd, out, self, y, kold, k, -, hl, hh, hc, -, -, -, -, -, hn, -⟩ := c
    exact hset a self y hl hh hn hc.1 hc.2.1

theorem run_nameInv (ops : List Op) (s : State) (hops : ops.all (fun op => !isIdGet op) = true)
    (h : NameInv s) : NameInv (run s ops) := by
  induction ops generalizing s with
  | nil => exact h
  | cons op ops ih =>
    simp only [List.all_cons, Bool.and_eq_true, Bool.not_eq_true'] at hops
    exact ih (step s op) hops.2 (step_nameInv s op hops.1 h)

theorem run_idInv (ops : List Op) (s : State) (hops : ops.all (fun op => !isNameGet op) = true)
    (h : IdInv s) : IdInv (run s ops) := by
  induction ops generalizing s with
  | nil => exact h
  | cons op ops ih =>
    simp only [List.all_cons, Bool.and_eq_true, Bool.not_eq_true'] at hops
    exact ih (step s op) hops.2 (step_idInv s op hops.1 h)

theorem init_coverInv (uuidSrc : Nat → QString) (decodes : QByteArray → Bool)
    (databaseInstance databaseImpl : Bool) :
    CoverInv (State.init uuidSrc decodes databaseInstance databaseImpl) := by
  refine ⟨?_, ?_⟩
  · intro i x hx
    simp [State.init] at hx
  · intro i j x y hx
    simp [State.init] at hx

theorem init_nameInv (uuidSrc : Nat → QString) (decodes : QByteArray → Bool)
    (databaseInstance databaseImpl : Bool) :
    NameInv (State.init uuidSrc decodes databaseInstance databaseImpl) := by
  intro i x hx
  simp [liveAlbum, State.init] at hx

theorem init_idInv (uuidSrc : Nat → QString) (decodes : QByteArray → Bool)
    (databaseInstance databaseImpl : Bool) :
    IdInv (State.init uuidSrc decodes databaseInstance databaseImpl) := by
  intro i x hx
  simp [State.init] at hx

theorem sampleUuid_injective : Function.Injective sampleUuid := by
  intro m n h
  have := congrArg List.length h
  simp [sampleUuid] at this
  exact this

/-- C2, counterexample.  From the empty cache: the name-based lookup of
artist `A`, album `X` (its future yields 5), then the id-based lookup of id 5
with the same name and artist, then `id()` on the first instance.  Instances
0 and 1 are both live, both carry artist `A` and name `X`, and both carry the
non-zero id 5. -/
theorem Album.two_live_instances :
    (liveAlbum (run sampleState
        [Op.get sampleArtist ['X'] true 5, Op.getWithId 5 ['X'] sampleArtist, Op.id 0]) 0).map
      (fun x => (x.m_artist, x.m_name, x.m_id)) = some (sampleArtist, ['X'], 5) ∧
    (liveAlbum (run sampleState
        [Op.get sampleArtist ['X'] true 5, Op.getWithId 5 ['X'] sampleArtist, Op.id 0]) 1).map
      (fun x => (x.m_artist, x.m_name, x.m_id)) = some (sampleArtist, ['X'], 5) := by
  decide

/-- C2, amended.  Let the UUID generator never repeat a value.  In every
state reachable from the empty cache by any sequence of calls there is at
most one live instance per cover id.  If the sequence contains no id-based
`get`, there is at most one live instance per (artist, name) pair.  If it
contains no name-based `get`, there is at most one live instance per non-zero
id. -/
theorem Album.identity_invariant (uuidSrc : Nat → QString) (decodes : QByteArray → Bool)
    (databaseInstance databaseImpl : Bool) (hinj : Function.Injective uuidSrc) :
    (∀ (ops : List Op) (i j : Handle) (x y : Album),
      liveAlbum (run (State.init uuidSrc decodes databaseInstance databaseImpl) ops) i
        = some x →
      liveAlbum (run (State.init uuidSrc decodes databaseInstance databaseImpl) ops) j
        = some y →
      x.m_coverId = y.m_coverId → i = j) ∧
    (∀ (ops : List Op), ops.all (fun op => !isIdGet op) = true →
      ∀ (i j : Handle) (x y : Album),
      liveAlbum (run (State.init uuidSrc decodes databaseInstance databaseImpl) ops) i
        = some x →
      liveAlbum (run (State.init uuidSrc decodes databaseInstance databaseImpl) ops) j
        = some y →
      x.m_artist = y.m_artist → x.m_name = y.m_name → i = j) ∧
    (∀ (ops : List Op), ops.all (fun op => !isNameGet op) = true →
      ∀ (i j : Handle) (x y : Album),
      liveAlbum (run (State.init uuidSrc decodes databaseInstance databaseImpl) ops) i
        = some x →
      liveAlbum (run (State.init uuidSrc decodes databaseInstance databaseImpl) ops) j
        = some y →
      x.m_id = y.m_id → 0 < x.m_id → i = j) := by
  refine ⟨?_, ?_, ?_⟩
  · intro ops i j x y hx hy he
    have hinv := run_coverInv ops (State.init uuidSrc decodes databaseInstance databaseImpl)
      hinj (init_coverInv uuidSrc decodes databaseInstance databaseImpl)
    exact hinv.2 i j x y (liveAlbum_some hx).1 (liveAlbum_some hy).1 he
  · intro ops hops i j x y hx hy ha hn
    have hinv := run_nameInv ops (State.init uuidSrc decodes databaseInstance databaseImpl)
      hops (init_nameInv uuidSrc decodes databaseInstance databaseImpl)
    have h1 := hinv i x hx
    have h2 := hinv j y hy
    rw [ha, hn, h2] at h1
    simp at h1
    exact h1.symm
  · intro ops hops i j x y hx hy he hpos
    have hinv := run_idInv ops (State.init uuidSrc decodes databaseInstance databaseImpl)
      hops (init_idInv uuidSrc decodes databaseInstance databaseImpl)
    have h1 := (hinv i x (liveAlbum_some hx).1).2 hpos
    have h2 := (hinv j y (liveAlbum_some hy).1).2 (by rw [← he]; exact hpos)
    rw [he, h2] at h1
    simp at h1
    exact h1.symm

theorem Album.identity_invariant_witness :
    Function.Injective sampleUuid ∧
    (∀ (ops : List Op) (i j : Handle) (x y : Album),
      liveAlbum (run (State.init sampleUuid (fun _ => true) true true) ops) i = some x →
      liveAlbum (run (State.init sampleUuid (fun _ => true) true true) ops) j = some y →
      x.m_coverId = y.m_coverId → i = j) ∧
    (∀ (ops : List Op), ops.all (fun op => !isIdGet op) = true →
      ∀ (i j : Handle) (x y : Album),
      liveAlbum (run (State.init sampleUuid (fun _ => true) true true) ops) i = some x →
      liveAlbum (run (State.init sampleUuid (fun _ => true) true true) ops) j = some y →
      x.m_artist = y.m_artist → x.m_name = y.m_name → i = j) ∧
    (∀ (ops : List Op), ops.all (fun op => !isNameGet op) = true →
      ∀ (i j : Handle) (x y : Album),
      liveAlbum (run (State.init sampleUuid (fun _ => true) true true) ops) i = some x →
      liveAlbum (run (State.init sampleUuid (fun _ => true) true true) ops) j = some y →
      x.m_id = y.m_id → 0 < x.m_id → i = j) :=
  ⟨sampleUuid_injective,
    Album.identity_invariant sampleUuid (fun _ => true) true true sampleUuid_injective⟩

/-! ## Instances handed out by the factories -/

theorem step_factoryInv (s : State) (op : Op) (hne : ∀ k, s.uuidSrc k ≠ [])
    (h : FactoryInv s) : FactoryInv (step s op) := by
  have hset : ∀ (a : Handle) (self y : Album), liveAlbum s a = some self →
      (step s op).heap = s.heap.set a y →
      (y.alive = true → y.m_ownRef = self.m_ownRef) → y.m_coverId ≠ [] →
      FactoryInv (step s op) := by
    intro a self y hl hh h1 h2
    refine ⟨?_, ?_⟩
    · intro i x hx
      obtain ⟨hx1, hx2⟩ := liveAlbum_inv hx
      rw [hh] at hx1
      rcases heap_set_inv hx1 with ⟨hi, hxy⟩ | ⟨hi, hx3⟩
      · rw [hxy] at hx2 ⊢
        rw [h1 hx2, hi]
        exact h.1 a self hl
      · exact h.1 i x (liveAlbum_of hx3 hx2)
    · intro i x hx
      rw [hh] at hx
      rcases heap_set_inv hx with ⟨hi, hxy⟩ | ⟨hi, hx3⟩
      · rw [hxy]
        exact h2
      · exact h.2 i x hx3
  have happ : ∀ (new : Album), (step s op).heap = s.heap ++ [new] →
      new.alive = true → new.m_ownRef = some s.heap.length →
      new.m_coverId = s.uuidSrc s.uuidCount → FactoryInv (step s op) := by
    intro new hh h0 h1 h2
    refine ⟨?_, ?_⟩
    · intro i x hx
      obtain ⟨hx1, hx2⟩ := liveAlbum_inv hx
      rw [hh] at hx1
      rcases heap_append_cases hx1 with hx3 | ⟨hi, hxn⟩
      · exact h.1 i x (liveAlbum_of hx3 hx2)
      · rw [hxn, hi]
        exact h1
    · intro i x hx
      rw [hh] at hx
      rcases heap_append_cases hx with hx3 | ⟨hi, hxn⟩
      · exact h.2 i x hx3
      · rw [hxn, h2]
        exact hne _
  rcases step_cases s op with c | c | c | c | c | c | c
  · refine ⟨?_, ?_⟩
    · intro i x hx
      obtain ⟨hx1, hx2⟩ := liveAlbum_inv hx
      rw [c.1] at hx1
      exact h.1 i x (liveAlbum_of hx1 hx2)
    · intro i x hx
      rw [c.1] at hx
      exact h.2 i x hx
  · obtain ⟨artist, name, autoCreate, idResult, -, -, hh, -⟩ := c
    exact happ _ hh rfl rfl rfl
  · obtain ⟨id, name, artist, -, -, hh, -⟩ := c
    exact happ _ hh rfl rfl rfl
  · obtain ⟨a, self, n, -, hl, -, -, hh, -⟩ := c
    exact hset a self _ hl hh (fun _ => rfl) (h.2 a self (liveAlbum_some hl).1)
  · obtain ⟨a, self, y, kold, -, hl, hh, -, hal, hfrom, -⟩ := c
    refine hset a self y hl hh (fun hy => by rw [hal] at hy; cases hy) ?_
    rcases hfrom with he | ⟨k, -, -, he⟩
    · rw [he]
      exact h.2 a self (liveAlbum_some hl).1
    · rw [he]
      exact hne k
  · obtain ⟨a, self, y, hl, hh, hc, hcid, -⟩ := c
    exact hset a self y hl hh (fun _ => hc.2.2.2.2.2.1)
      (by rw [hcid]; exact h.2 a self (liveAlbum_some hl).1)
  · obtain ⟨a, rd, out, self, y, kold, k, -, hl, hh, hc, hcid, -⟩ := c
    exact hset a self y hl hh (fun _ => hc.2.2.2.2.2.1) (by rw [hcid]; exact hne k)

/-- In every state reachable from the empty cache, with a generator that never
hands out the empty string, every live instance holds a reference to itself
and has a non-empty cover id. -/
theorem run_factoryInv (ops : List Op) (s : State) (hne : ∀ k, s.uuidSrc k ≠ [])
    (h : FactoryInv s) : FactoryInv (run s ops) := by
  induction ops generalizing s with
  | nil => exact h
  | cons op ops ih =>
    exact ih (step s op) (by rw [(step_env s op).1]; exact hne) (step_factoryInv s op hne h)

theorem init_factoryInv (uuidSrc : Nat → QString) (decodes : QByteArray → Bool)
    (databaseInstance databaseImpl : Bool) :
    FactoryInv (State.init uuidSrc decodes databaseInstance databaseImpl) := by
  refine ⟨?_, ?_⟩
  · intro i x hx
    simp [liveAlbum, State.init] at hx
  · intro i x hx
    simp [State.init] at hx

/-! ## Lock discipline and the cache key -/

/-- The calls that take `s_mutex` make no unguarded access to a hash: every
call other than a delivery to `infoSystemInfo` leaves the count of unguarded
accesses where it was. -/
theorem step_guarded (s : State) (op : Op)
    (hop : ∀ a requestData output, op ≠ Op.infoSystemInfo a requestData output) :
    (step s op).unguarded = s.unguarded := by
  cases op with
  | get artist name autoCreate idResult =>
    simp only [step]
    by_cases hdb : s.databaseInstance = true ∧ s.databaseImpl = true
    · cases hk : s.s_albumsByName (albumCacheKey artist name) with
      | none =>
        exact (Album.get_miss s artist name autoCreate idResult hdb.1 hdb.2 hk).2.2.2.2.2.2.2.2.2.2.2.1
      | some p =>
        rw [Album.get_hit s artist name autoCreate idResult p hdb.1 hdb.2 hk]
        simp [mapAccess_unguarded]
    · rw [Album.get_no_database s artist name autoCreate idResult (not_both_true hdb)]
  | getWithId id name artist =>
    simp only [step]
    cases hk : s.s_albumsById id with
    | none => exact (Album.getWithId_miss s id name artist hk).2.2.2.2.2.2.2.2.2.2.2.1
    | some p =>
      rw [Album.getWithId_hit s id name artist p hk]
      simp [mapAccess_unguarded]
  | getByCoverId u =>
    exact (Album.getByCoverId_spec s u).2.2.2.2.2.2.2.2.2.2.2.1
  | id a =>
    simp only [step]
    cases hl : liveAlbum s a with
    | none => simp [Album.id_dead s a hl]
    | some self =>
      cases hw : self.m_waitingForId with
      | false => simp [Album.id_resolved s a self hl hw]
      | true =>
        cases hf : self.m_idFuture with
        | none => simp [Album.id_unset s a self hl hw hf]
        | some n =>
          obtain ⟨s1, h0, -, -, -, -, -, -, -, -, -, -, h5, -⟩ :=
            Album.id_pending s a self n hl hw hf
          simp [h0, h5]
  | destroy a =>
    simp only [step]
    cases hl : liveAlbum s a with
    | none => simp [Album.destroy_dead s a hl]
    | some self =>
      obtain ⟨s1, h0, -, -, -, -, -, -, -, -, -, -, h5, -⟩ := Album.destroy_spec s a self hl
      simp [h0, h5]
  | cover a size forceLoad =>
    simp only [step]
    cases hl : liveAlbum s a with
    | none => simp [Album.cover_dead s a size forceLoad hl]
    | some self =>
      obtain ⟨p, s1, y, h0, -, -, -, -, -, -, -, -, -, -, -, -, -, -, -, -, -, h5⟩ :=
        Album.cover_spec s a size forceLoad self hl
      simp [h0, h5]
  | infoSystemInfo a rd out => exact absurd rfl (hop a rd out)
  | infoSystemFinished a target =>
    simp only [step]
    cases hl : liveAlbum s a with
    | none => simp [Album.infoSystemFinished_dead s a target hl]
    | some self =>
      obtain ⟨s1, y, h0, -, -, -, -, -, -, -, -, -, -, -, -, -, -, -, h5, -⟩ :=
        Album.infoSystemFinished_spec s a target self hl
      simp [h0, h5]

/-- A delivery of a valid cover result to `infoSystemInfo`, made (as every
call is) with `s_mutex` free, performs two accesses to `s_albumsByCoverId`
without the mutex. -/
theorem Album.infoSystemInfo_unguarded (s : State) (a : Handle) (rd : InfoRequestData)
    (out : QVariant) (self : Album) (hlive : liveAlbum s a = some self)
    (hacc : Album.accepts s self rd = true) (hn : out.isNull = false)
    (hv : out.isValid = true) (hfree : s.mutexHeld = false) :
    ∃ s1, Album.infoSystemInfo s a rd out = some s1 ∧ s1.unguarded = s.unguarded + 2 := by
  obtain ⟨s1, y, kold, k, h0, -, -, -, -, -, -, -, -, -, -, -, -, -, -, -, -, -, h5, -⟩ :=
    Album.infoSystemInfo_valid s a rd out self hlive hacc hn hv
  exact ⟨s1, h0, by rw [h5, hfree]; simp⟩

/-- C9, the failing input.  After one name-based lookup `s_mutex` is free and
no hash access has been made without it; delivering a valid cover result for
instance 0 to `infoSystemInfo` then makes two accesses to `s_albumsByCoverId`
(the `remove` and the re-insertion) while the mutex is not held. -/
theorem Album.infoSystemInfo_lock_violation :
    sampleOne.mutexHeld = false ∧ sampleOne.unguarded = 0 ∧
    (Album.infoSystemInfo sampleOne 0 sampleRequest sampleResult).map
      (fun t => (t.mutexHeld, t.unguarded)) = some (false, 2) := by
  decide

/-- The cache key does not tell apart a tab pair at the end of the artist name
from one at the start of the album name, nor the place markers of the format
string from the same text inside a name. -/
theorem albumCacheKey_not_injective :
    albumCacheKey { name := ['A', tab, tab] } ['B']
      = albumCacheKey { name := ['A'] } [tab, tab, 'B'] ∧
    albumCacheKey { name := ['%', '1'] } ['X']
      = albumCacheKey { name := ['X'] } ['%', '2'] := by
  decide

/-- C10, the failing input.  With a backend present and an empty cache, the
lookup of artist `A<tab><tab>`, album `B` constructs instance 0; the lookup of
artist `A`, album `<tab><tab>B` that follows has the same cache key and
returns instance 0, whose name is `B` and whose artist is `A<tab><tab>`, not
what was asked for. -/
theorem Album.get_returns_other_album :
    (Album.get sampleState { name := ['A', tab, tab] } ['B'] true 5).1 = some 0 ∧
    (Album.get (Album.get sampleState { name := ['A', tab, tab] } ['B'] true 5).2
      { name := ['A'] } [tab, tab, 'B'] true 6).1 = some 0 ∧
    (liveAlbum (Album.get (Album.get sampleState { name := ['A', tab, tab] } ['B'] true 5).2
      { name := ['A'] } [tab, tab, 'B'] true 6).2 0).map
        (fun x => (x.m_artist.name, x.m_name)) = some (['A', tab, tab], ['B']) ∧
    (['A', tab, tab], ['B']) ≠ (['A'], [tab, tab, 'B']) := by
  decide

end Tomahawk
